import Mathlib

/-!
# Verification of the PythonProgramming repository

A shallow embedding of the repository's scripts
(`task_b.py`, `task_c.py`, `task_d.py`, `task_e.py`, `task_f.py`,
`task_g_class.py`, `task_g_dict.py`) and proofs of the spec claims.

Conventions of the embedding:
* Python `str` values are modelled as `List Char` at the parsing level and as
  `String` for produced output lines (Lean's `String` is logically a `List Char`).
* Python `float` values are modelled as exact rationals (`ℚ`); `int` as `ℤ`.
* File contents are modelled as the list of their lines (without trailing
  newline characters; the scripts strip every field in which a trailing
  newline could matter).
* A Python function that can raise an uncaught exception is modelled as a
  function into `Option`; `none` means the call raises.
-/

namespace PyEmbed

/-! ## Characters, whitespace, splitting -/

/-- The whitespace characters recognised by Python's `str.strip()`
(restricted to the ones that can occur in text lines here). -/
def isPySpace (c : Char) : Bool :=
  c == ' ' || c == '\t' || c == '\n' || c == '\r'

/-- Python `str.strip()` on a list of characters. -/
def pyStrip (l : List Char) : List Char :=
  ((l.dropWhile isPySpace).reverse.dropWhile isPySpace).reverse

/-- Python `str.strip()` on a `String`. -/
def pyStripS (s : String) : String := ⟨pyStrip s.toList⟩

/-- Helper for `splitOnChar`: `acc` holds the current chunk reversed. -/
def splitOnCharAux (sep : Char) : List Char → List Char → List (List Char)
  | [], acc => [acc.reverse]
  | c :: rest, acc =>
      if c = sep then acc.reverse :: splitOnCharAux sep rest []
      else splitOnCharAux sep rest (c :: acc)

/-- Python `str.split(sep)` for a one-character separator: always returns at
least one (possibly empty) chunk. -/
def splitOnChar (sep : Char) (l : List Char) : List (List Char) :=
  splitOnCharAux sep l []

/-- Python `str.replace(a, b)` for one-character arguments. -/
def replaceChar (a b : Char) (l : List Char) : List Char :=
  l.map (fun c => if c = a then b else c)

/-! ## Decimal digits, `int()` and `float()` -/

/-- The character for a decimal digit value (`0 ≤ d ≤ 9`; other inputs are
mapped to `'9'`, but are never produced by `natToStrAux`). -/
def digitCharOf (d : ℕ) : Char :=
  match d with
  | 0 => '0' | 1 => '1' | 2 => '2' | 3 => '3' | 4 => '4'
  | 5 => '5' | 6 => '6' | 7 => '7' | 8 => '8' | _ => '9'

/-- Numeric value of a decimal digit character, `none` for non-digits. -/
def digitVal? (c : Char) : Option ℕ :=
  if '0' ≤ c ∧ c ≤ '9' then some (c.toNat - '0'.toNat) else none

/-- Left-to-right accumulation of a decimal numeral; fails on a non-digit. -/
def parseDigitsAux : List Char → ℕ → Option ℕ
  | [], acc => some acc
  | c :: rest, acc =>
      match digitVal? c with
      | some d => parseDigitsAux rest (acc * 10 + d)
      | none => none

/-- A non-empty string of decimal digits, as a natural number. -/
def parseNatDigits (l : List Char) : Option ℕ :=
  if l = [] then none else parseDigitsAux l 0

/-- Sign handling of Python `int(s)` (after stripping). -/
def parsePyIntCore : List Char → Option ℤ
  | [] => none
  | c :: rest =>
      if c = '-' then (parseNatDigits rest).map (fun n => -(n : ℤ))
      else if c = '+' then (parseNatDigits rest).map (fun n => (n : ℤ))
      else (parseNatDigits (c :: rest)).map (fun n => (n : ℤ))

/-- Python `int(s)`: strips whitespace, allows an optional sign, then a
non-empty digit string (leading zeros allowed). -/
def parsePyInt (l : List Char) : Option ℤ :=
  parsePyIntCore (pyStrip l)

/-- The unsigned part of Python `float(s)` for fixed-point decimal literals
(`"123"`, `"123."`, `".5"`, `"12.25"`).  Exponent, `inf` and `nan` forms do
not occur in this repository's data and are not modelled. -/
def parseUnsignedFloat (l : List Char) : Option ℚ :=
  match splitOnChar '.' l with
  | [a] => (parseNatDigits a).map (fun n => (n : ℚ))
  | [a, []] => (parseNatDigits a).map (fun n => (n : ℚ))
  | [[], b] => (parseNatDigits b).map (fun n => (n : ℚ) / 10 ^ b.length)
  | [a, b] =>
      match parseNatDigits a, parseNatDigits b with
      | some x, some y => some ((x : ℚ) + (y : ℚ) / 10 ^ b.length)
      | _, _ => none
  | _ => none

/-- Sign handling of Python `float(s)` (after stripping). -/
def parsePyFloatCore : List Char → Option ℚ
  | [] => none
  | c :: rest =>
      if c = '-' then (parseUnsignedFloat rest).map (fun q => -q)
      else if c = '+' then parseUnsignedFloat rest
      else parseUnsignedFloat (c :: rest)

/-- Python `float(s)`: strip, optional sign, fixed-point literal. -/
def parsePyFloat (l : List Char) : Option ℚ :=
  parsePyFloatCore (pyStrip l)

/-! ## Printing numbers -/

/-- Decimal digits of `n`, most significant first, prepended to `acc`.
The first argument is fuel (any value above `n` is enough); it keeps the
recursion structural so that the kernel can evaluate numerals. -/
def natToStrAux : ℕ → ℕ → List Char → List Char
  | 0, _, acc => acc
  | fuel + 1, n, acc =>
      if n < 10 then digitCharOf n :: acc
      else natToStrAux fuel (n / 10) (digitCharOf (n % 10) :: acc)

/-- Decimal rendering of a natural number (Python `f"{n}"`). -/
def natToStr (n : ℕ) : List Char := natToStrAux (n + 1) n []

/-- Decimal rendering of an integer (Python `f"{z}"`). -/
def intToStr (z : ℤ) : List Char :=
  if z < 0 then '-' :: natToStr (-z).toNat else natToStr z.toNat

/-- Zero-pad a numeral on the left to a minimum width (`%02d`, `%Y`, …). -/
def padNum (width n : ℕ) : List Char :=
  let s := natToStr n
  List.replicate (width - s.length) '0' ++ s

/-- Round a rational to the nearest integer, ties to even — the rounding
performed by Python's fixed-point float formatting. -/
def roundHalfEven (q : ℚ) : ℤ :=
  let f := ⌊q⌋
  let r := q - f
  if r < 1 / 2 then f
  else if 1 / 2 < r then f + 1
  else if f % 2 = 0 then f else f + 1

/-- `f"{q:.2f}"` for a non-negative scaled numerator `n` (value `n / 100`). -/
def fixed2OfNat (n : ℕ) : List Char :=
  natToStr (n / 100) ++ '.' :: padNum 2 (n % 100)

/-- Python `f"{q:.2f}"`: two-decimal fixed-point rendering with a dot. -/
def fixed2 (q : ℚ) : List Char :=
  let n := roundHalfEven (q * 100)
  if n < 0 then '-' :: fixed2OfNat (-n).toNat else fixed2OfNat n.toNat

/-! ## Dates and times (the parts of `datetime` the scripts use) -/

/-- A calendar date, as validated by `datetime.date`. -/
structure Date where
  year : ℕ
  month : ℕ
  day : ℕ
deriving DecidableEq, Repr

/-- A time of day (`datetime.time`, second precision). -/
structure Time where
  hour : ℕ
  minute : ℕ
  second : ℕ
deriving DecidableEq, Repr

/-- A date plus a time of day (`datetime.datetime`, second precision). -/
structure DateTime where
  date : Date
  time : Time
deriving DecidableEq, Repr

/-- Gregorian leap-year test, as in `datetime`. -/
def isLeap (y : ℕ) : Bool :=
  y % 4 == 0 && (y % 100 != 0 || y % 400 == 0)

/-- Number of days in a month (`m` between 1 and 12). -/
def daysInMonth (y m : ℕ) : ℕ :=
  if m = 2 then (if isLeap y then 29 else 28)
  else if m = 4 ∨ m = 6 ∨ m = 9 ∨ m = 11 then 30
  else 31

/-- The `datetime.date(y, m, d)` constructor: validates its arguments and
raises `ValueError` (here: `none`) on an invalid calendar date. -/
def mkDate (y m d : ℤ) : Option Date :=
  if 1 ≤ y ∧ y ≤ 9999 ∧ 1 ≤ m ∧ m ≤ 12 ∧ 1 ≤ d ∧
      d ≤ (daysInMonth y.toNat m.toNat : ℤ) then
    some ⟨y.toNat, m.toNat, d.toNat⟩
  else none

/-- Python `date.__le__` (lexicographic on year, month, day). -/
def dateLeB (a b : Date) : Bool :=
  Nat.blt a.year b.year ||
    (a.year == b.year &&
      (Nat.blt a.month b.month ||
        (a.month == b.month && Nat.ble a.day b.day)))

/-- Parse the time part `HH:MM` or `HH:MM:SS` of an ISO 8601 timestamp. -/
def parseIsoTime (l : List Char) : Option Time :=
  match splitOnChar ':' l with
  | [hh, mm] =>
      if hh.length = 2 ∧ mm.length = 2 then
        match parseNatDigits hh, parseNatDigits mm with
        | some h, some m =>
            if h < 24 ∧ m < 60 then some ⟨h, m, 0⟩ else none
        | _, _ => none
      else none
  | [hh, mm, ss] =>
      if hh.length = 2 ∧ mm.length = 2 ∧ ss.length = 2 then
        match parseNatDigits hh, parseNatDigits mm, parseNatDigits ss with
        | some h, some m, some s =>
            if h < 24 ∧ m < 60 ∧ s < 60 then some ⟨h, m, s⟩ else none
        | _, _, _ => none
      else none
  | _ => none

/-- Parse the date part `YYYY-MM-DD` of an ISO 8601 timestamp
(`fromisoformat` requires the zero-padded widths). -/
def parseIsoDate (l : List Char) : Option Date :=
  match splitOnChar '-' l with
  | [yy, mm, dd] =>
      if yy.length = 4 ∧ mm.length = 2 ∧ dd.length = 2 then
        match parseNatDigits yy, parseNatDigits mm, parseNatDigits dd with
        | some y, some m, some d => mkDate y m d
        | _, _, _ => none
      else none
  | _ => none

/-- Python `datetime.fromisoformat` restricted to the forms appearing in the
data files: `YYYY-MM-DD`, `YYYY-MM-DDTHH:MM`, `YYYY-MM-DDTHH:MM:SS`. -/
def fromisoformat (l : List Char) : Option DateTime :=
  match splitOnChar 'T' l with
  | [d] => (parseIsoDate d).map (fun dd => ⟨dd, ⟨0, 0, 0⟩⟩)
  | [d, t] =>
      match parseIsoDate d, parseIsoTime t with
      | some dd, some tt => some ⟨dd, tt⟩
      | _, _ => none
  | _ => none

/-- `datetime.strptime(s, "%Y-%m-%d").date()`: like the ISO form but the
field widths are not constrained. -/
def strptimeDate (l : List Char) : Option Date :=
  match splitOnChar '-' l with
  | [yy, mm, dd] =>
      match parseNatDigits yy, parseNatDigits mm, parseNatDigits dd with
      | some y, some m, some d => mkDate y m d
      | _, _, _ => none
  | _ => none

/-- `datetime.strptime(s, "%H:%M").time()`. -/
def strptimeTime (l : List Char) : Option Time :=
  match splitOnChar ':' l with
  | [hh, mm] =>
      match parseNatDigits hh, parseNatDigits mm with
      | some h, some m =>
          if h < 24 ∧ m < 60 then some ⟨h, m, 0⟩ else none
      | _, _ => none
  | _ => none

/-- `datetime.strptime(s, "%Y-%m-%d %H:%M:%S")`. -/
def strptimeDateTime (l : List Char) : Option DateTime :=
  match splitOnChar ' ' l with
  | [d, t] =>
      match strptimeDate d,
            (match splitOnChar ':' t with
             | [hh, mm, ss] =>
                 match parseNatDigits hh, parseNatDigits mm, parseNatDigits ss with
                 | some h, some m, some s =>
                     if h < 24 ∧ m < 60 ∧ s < 60 then
                       some (⟨h, m, s⟩ : Time)
                     else none
                 | _, _, _ => none
             | _ => none) with
      | some dd, some tt => some ⟨dd, tt⟩
      | _, _ => none
  | _ => none

/-- `date.strftime("%d.%m.%Y")` (zero-padded). -/
def strftimeDate (d : Date) : String :=
  ⟨padNum 2 d.day ++ '.' :: padNum 2 d.month ++ '.' :: padNum 4 d.year⟩

/-- `time.strftime("%H.%M")` (zero-padded). -/
def strftimeTimeHM (t : Time) : String :=
  ⟨padNum 2 t.hour ++ '.' :: padNum 2 t.minute⟩

/-! ## `task_b.py` (the part used by the claims) -/

namespace TaskB

/-- `task_b.py`, `print_paid`: the predicate
`reservation[6].strip().lower() == "true"` deciding the `Paid:` line. -/
def paidToken (l : List Char) : Bool :=
  (pyStrip l).map Char.toLower == "true".toList

end TaskB

/-! ## Reservation records (`task_c.py`, `task_g_class.py`, `task_g_dict.py`)

The three scripts store a converted reservation as a positional list, a
class instance and a dictionary with fixed keys respectively.  Each storage
shape is embedded as its own structure whose fields are the positions/keys
in source order. -/

namespace TaskC

/-- The converted reservation list of `task_c.py` (one structure field per
list position, in the order `convert_reservation_data` appends them). -/
structure Res where
  reservationId : ℤ
  name : String
  email : String
  phone : String
  reservationDate : Date
  reservationTime : Time
  durationHours : ℤ
  price : ℚ
  confirmed : Bool
  reservedResource : String
  createdAt : DateTime
deriving DecidableEq, Repr

/-- `task_c.py`, `convert_reservation_data`: convert the 11 raw fields;
an uncaught `ValueError`/`IndexError` is `none`. -/
def convert_reservation_data (fields : List (List Char)) : Option Res :=
  match fields with
  | f0 :: f1 :: f2 :: f3 :: f4 :: f5 :: f6 :: f7 :: f8 :: f9 :: f10 :: _ =>
      match parsePyInt f0, strptimeDate f4, strptimeTime f5, parsePyInt f6,
            parsePyFloat f7, strptimeDateTime (pyStrip f10) with
      | some rid, some rdate, some rtime, some dur, some price, some created =>
          some { reservationId := rid, name := ⟨f1⟩, email := ⟨f2⟩,
                 phone := ⟨f3⟩, reservationDate := rdate,
                 reservationTime := rtime, durationHours := dur,
                 price := price, confirmed := f8 = "True".toList,
                 reservedResource := ⟨f9⟩, createdAt := created }
      | _, _, _, _, _, _ => none
  | _ => none

/-- `task_c.py`, `fetch_reservations`: convert every line; there is no
error handling, so one bad line aborts the whole load (`none`). -/
def fetch_reservations (lines : List (List Char)) : Option (List Res) :=
  match lines with
  | [] => some []
  | l :: rest =>
      match convert_reservation_data (splitOnChar '|' l) with
      | some r => (fetch_reservations rest).map (fun rs => r :: rs)
      | none => none

/-- `task_c.py`, `total_revenue`: `sum(r[7] for r in reservations if r[8])`
— it sums the `price` field alone over confirmed reservations. -/
def total_revenue_value (reservations : List Res) : ℚ :=
  reservations.foldl (fun acc r => if r.confirmed then acc + r.price else acc) 0

/-- The line printed by `task_c.py`'s `total_revenue`. -/
def total_revenue_line (reservations : List Res) : String :=
  "Total revenue from confirmed reservations: " ++
    ⟨replaceChar '.' ',' (fixed2 (total_revenue_value reservations))⟩ ++ " €"

end TaskC

namespace TaskGC

/-- The `Reservation` class of `task_g_class.py`. -/
structure Reservation where
  reservationId : ℤ
  name : String
  email : String
  phone : String
  reservationDate : Date
  reservationTime : Time
  durationHours : ℤ
  price : ℚ
  confirmed : Bool
  reservedResource : String
  createdAt : DateTime
deriving DecidableEq, Repr

/-- `Reservation.__init__` of `task_g_class.py`; `none` on an uncaught
conversion error. -/
def Reservation.init (fields : List (List Char)) : Option Reservation :=
  match fields with
  | f0 :: f1 :: f2 :: f3 :: f4 :: f5 :: f6 :: f7 :: f8 :: f9 :: f10 :: _ =>
      match parsePyInt f0, strptimeDate f4, strptimeTime f5, parsePyInt f6,
            parsePyFloat f7, strptimeDateTime (pyStrip f10) with
      | some rid, some rdate, some rtime, some dur, some price, some created =>
          some { reservationId := rid, name := ⟨f1⟩, email := ⟨f2⟩,
                 phone := ⟨f3⟩, reservationDate := rdate,
                 reservationTime := rtime, durationHours := dur,
                 price := price, confirmed := pyStrip f8 = "True".toList,
                 reservedResource := ⟨f9⟩, createdAt := created }
      | _, _, _, _, _, _ => none
  | _ => none

/-- `Reservation.revenue` of `task_g_class.py`:
`self.durationHours * self.price`. -/
def Reservation.revenue (r : Reservation) : ℚ :=
  (r.durationHours : ℚ) * r.price

/-- `task_g_class.py`, `fetch_reservations`: skip blank lines, convert the
rest; a conversion error aborts the load (`none`). -/
def fetch_reservations (lines : List (List Char)) : Option (List Reservation) :=
  match lines with
  | [] => some []
  | l :: rest =>
      if pyStrip l = [] then fetch_reservations rest
      else
        match Reservation.init (splitOnChar '|' l) with
        | some r => (fetch_reservations rest).map (fun rs => r :: rs)
        | none => none

/-- `task_g_class.py`, `confirmed_reservations`: the printed lines. -/
def confirmed_reservations (rs : List Reservation) : List String :=
  rs.filterMap (fun r =>
    if r.confirmed then
      some ("- " ++ r.name ++ ", " ++ r.reservedResource ++ ", " ++
        strftimeDate r.reservationDate ++ " at " ++
        strftimeTimeHM r.reservationTime)
    else none)

/-- `task_g_class.py`, `long_reservations`: the printed lines. -/
def long_reservations (rs : List Reservation) : List String :=
  rs.filterMap (fun r =>
    if 3 ≤ r.durationHours then
      some ("- " ++ r.name ++ ", " ++ strftimeDate r.reservationDate ++
        " at " ++ strftimeTimeHM r.reservationTime ++ ", duration " ++
        ⟨intToStr r.durationHours⟩ ++ " h, " ++ r.reservedResource)
    else none)

/-- `task_g_class.py`, `confirmation_statuses`: the printed lines. -/
def confirmation_statuses (rs : List Reservation) : List String :=
  rs.map (fun r =>
    r.name ++ " → " ++ (if r.confirmed then "Confirmed" else "NOT Confirmed"))

/-- `task_g_class.py`, `confirmation_summary`: the printed line (one
`print` call containing a newline). -/
def confirmation_summary (rs : List Reservation) : String :=
  let confirmed_count := rs.foldl (fun n r => if r.confirmed then n + 1 else n) 0
  let total := rs.length
  let not_confirmed := total - confirmed_count
  "- Confirmed reservations: " ++ ⟨natToStr confirmed_count⟩ ++
    " pcs\n- Not confirmed reservations: " ++ ⟨natToStr not_confirmed⟩ ++ " pcs"

/-- `task_g_class.py`, `total_revenue`: the printed line. -/
def total_revenue (rs : List Reservation) : String :=
  let revenue := rs.foldl
    (fun acc r => if r.confirmed then acc + r.revenue else acc) 0
  ⟨replaceChar '.' ','
    ("Total revenue from confirmed reservations: " ++
      ⟨fixed2 revenue⟩ ++ " €").toList⟩

/-- `task_g_class.py`, `main`: the full console output for a given
reservation file (given as its lines); `none` if the run crashes. -/
def main (lines : List (List Char)) : Option (List String) :=
  (fetch_reservations lines).map (fun rs =>
    "1) Confirmed Reservations" :: confirmed_reservations rs ++
    "2) Long Reservations (≥ 3 h)" :: long_reservations rs ++
    "3) Reservation Confirmation Status" :: confirmation_statuses rs ++
    "4) Confirmation Summary" :: confirmation_summary rs ::
    "5) Total Revenue from Confirmed Reservations" :: [total_revenue rs])

end TaskGC

namespace TaskGD

/-- The reservation dictionary of `task_g_dict.py` (one structure field per
dictionary key). -/
structure ResDict where
  reservationId : ℤ
  name : String
  email : String
  phone : String
  reservationDate : Date
  reservationTime : Time
  durationHours : ℤ
  price : ℚ
  confirmed : Bool
  reservedResource : String
  createdAt : DateTime
deriving DecidableEq, Repr

/-- `task_g_dict.py`, `convert_reservation_data`; `none` on an uncaught
conversion error. -/
def convert_reservation_data (fields : List (List Char)) : Option ResDict :=
  match fields with
  | f0 :: f1 :: f2 :: f3 :: f4 :: f5 :: f6 :: f7 :: f8 :: f9 :: f10 :: _ =>
      match parsePyInt f0, strptimeDate f4, strptimeTime f5, parsePyInt f6,
            parsePyFloat f7, strptimeDateTime (pyStrip f10) with
      | some rid, some rdate, some rtime, some dur, some price, some created =>
          some { reservationId := rid, name := ⟨f1⟩, email := ⟨f2⟩,
                 phone := ⟨f3⟩, reservationDate := rdate,
                 reservationTime := rtime, durationHours := dur,
                 price := price, confirmed := pyStrip f8 = "True".toList,
                 reservedResource := ⟨f9⟩, createdAt := created }
      | _, _, _, _, _, _ => none
  | _ => none

/-- `task_g_dict.py`, `fetch_reservations`: skip blank lines, convert the
rest; a conversion error aborts the load (`none`). -/
def fetch_reservations (lines : List (List Char)) : Option (List ResDict) :=
  match lines with
  | [] => some []
  | l :: rest =>
      if pyStrip l = [] then fetch_reservations rest
      else
        match convert_reservation_data (splitOnChar '|' l) with
        | some r => (fetch_reservations rest).map (fun rs => r :: rs)
        | none => none

/-- `task_g_dict.py`, `confirmed_reservations`: the printed lines. -/
def confirmed_reservations (rs : List ResDict) : List String :=
  rs.filterMap (fun r =>
    if r.confirmed then
      some ("- " ++ r.name ++ ", " ++ r.reservedResource ++ ", " ++
        strftimeDate r.reservationDate ++ " at " ++
        strftimeTimeHM r.reservationTime)
    else none)

/-- `task_g_dict.py`, `long_reservations`: the printed lines. -/
def long_reservations (rs : List ResDict) : List String :=
  rs.filterMap (fun r =>
    if 3 ≤ r.durationHours then
      some ("- " ++ r.name ++ ", " ++ strftimeDate r.reservationDate ++
        " at " ++ strftimeTimeHM r.reservationTime ++ ", duration " ++
        ⟨intToStr r.durationHours⟩ ++ " h, " ++ r.reservedResource)
    else none)

/-- `task_g_dict.py`, `confirmation_statuses`: the printed lines. -/
def confirmation_statuses (rs : List ResDict) : List String :=
  rs.map (fun r =>
    r.name ++ " → " ++ (if r.confirmed then "Confirmed" else "NOT Confirmed"))

/-- `task_g_dict.py`, `confirmation_summary`: the printed line. -/
def confirmation_summary (rs : List ResDict) : String :=
  let confirmed := (rs.filter (fun r => r.confirmed)).length
  let total_data := rs.length
  let not_confirmed := total_data - confirmed
  "- Confirmed reservations: " ++ ⟨natToStr confirmed⟩ ++
    " pcs\n- Not confirmed reservations: " ++ ⟨natToStr not_confirmed⟩ ++ " pcs"

/-- `task_g_dict.py`, `total_revenue`: the printed line
(`sum(r["durationHours"] * r["price"] for r in reservations if r["confirmed"])`). -/
def total_revenue (rs : List ResDict) : String :=
  let revenue := rs.foldl
    (fun acc r =>
      if r.confirmed then acc + (r.durationHours : ℚ) * r.price else acc) 0
  ⟨replaceChar '.' ','
    ("Total revenue from confirmed reservations: " ++
      ⟨fixed2 revenue⟩ ++ " €").toList⟩

/-- The revenue sum of `task_g_dict.py`'s `total_revenue`, exposed as a
value for the revenue claims. -/
def total_revenue_value (rs : List ResDict) : ℚ :=
  rs.foldl
    (fun acc r =>
      if r.confirmed then acc + (r.durationHours : ℚ) * r.price else acc) 0

/-- `task_g_dict.py`, `main`: the full console output; `none` if the run
crashes. -/
def main (lines : List (List Char)) : Option (List String) :=
  (fetch_reservations lines).map (fun rs =>
    "1) Confirmed Reservations" :: confirmed_reservations rs ++
    "2) Long Reservations (≥ 3 h)" :: long_reservations rs ++
    "3) Reservation Confirmation Status" :: confirmation_statuses rs ++
    "4) Confirmation Summary" :: confirmation_summary rs ::
    "5) Total Revenue from Confirmed Reservations" :: [total_revenue rs])

end TaskGD

/-- The field-for-field translation from the class representation of
`task_g_class.py` to the dictionary representation of `task_g_dict.py`
(used to compare the two implementations). -/
def gcToGd (r : TaskGC.Reservation) : TaskGD.ResDict :=
  { reservationId := r.reservationId, name := r.name, email := r.email,
    phone := r.phone, reservationDate := r.reservationDate,
    reservationTime := r.reservationTime, durationHours := r.durationHours,
    price := r.price, confirmed := r.confirmed,
    reservedResource := r.reservedResource, createdAt := r.createdAt }

/-! ## Per-phase daily totals (`task_d.py`, `task_e.py`)

Both scripts accumulate six per-phase running sums into a dictionary keyed
by calendar date.  The Python `dict` (insertion-ordered, updated in place)
is embedded as an association list with an in-place update. -/

/-- The six per-phase running sums held per day
(`cons` phases 1–3, `prod` phases 1–3). -/
structure PhaseTotals where
  cons1 : ℚ
  cons2 : ℚ
  cons3 : ℚ
  prod1 : ℚ
  prod2 : ℚ
  prod3 : ℚ
deriving DecidableEq, Repr

/-- The all-zero totals a day is initialised with. -/
def zeroTotals : PhaseTotals := ⟨0, 0, 0, 0, 0, 0⟩

/-- Pointwise addition of per-phase totals. -/
def addT (a b : PhaseTotals) : PhaseTotals :=
  ⟨a.cons1 + b.cons1, a.cons2 + b.cons2, a.cons3 + b.cons3,
   a.prod1 + b.prod1, a.prod2 + b.prod2, a.prod3 + b.prod3⟩

/-- Pointwise scaling of per-phase totals. -/
def scaleT (c : ℚ) (a : PhaseTotals) : PhaseTotals :=
  ⟨c * a.cons1, c * a.cons2, c * a.cons3, c * a.prod1, c * a.prod2, c * a.prod3⟩

/-- `d[k] = f(d[k])` with `d[k]` initialised to `zeroTotals` if `k` is not
yet a key — the `if d not in daily: daily[d] = {0…}` / update pattern of
both scripts, on an insertion-ordered association list. -/
def alistUpdate (k : Date) (f : PhaseTotals → PhaseTotals) :
    List (Date × PhaseTotals) → List (Date × PhaseTotals)
  | [] => [(k, f zeroTotals)]
  | (k', v) :: rest =>
      if k' = k then (k', f v) :: rest else (k', v) :: alistUpdate k f rest

/-- Dictionary lookup. -/
def alistFind (k : Date) : List (Date × PhaseTotals) → Option PhaseTotals
  | [] => none
  | (k', v) :: rest => if k' = k then some v else alistFind k rest

/-- Lookup defaulting to the zero totals for an absent day. -/
def lookupTotals (l : List (Date × PhaseTotals)) (k : Date) : PhaseTotals :=
  (alistFind k l).getD zeroTotals

namespace TaskD

/-- One row of `task_d.py`'s `read_data`: the date of the timestamp plus the
six integer Wh values. -/
structure Row where
  date : Date
  cons1 : ℤ
  cons2 : ℤ
  cons3 : ℤ
  prod1 : ℤ
  prod2 : ℤ
  prod3 : ℤ
deriving DecidableEq, Repr

/-- One loop body of `task_d.py`'s `read_data`: split the `;`-separated
line, parse the timestamp and the six `int` fields; an uncaught exception is
`none`. -/
def parse_line (l : List Char) : Option Row :=
  match splitOnChar ';' l with
  | f0 :: f1 :: f2 :: f3 :: f4 :: f5 :: f6 :: _ =>
      match fromisoformat f0, parsePyInt f1, parsePyInt f2, parsePyInt f3,
            parsePyInt f4, parsePyInt f5, parsePyInt f6 with
      | some dt, some c1, some c2, some c3, some p1, some p2, some p3 =>
          some ⟨dt.date, c1, c2, c3, p1, p2, p3⟩
      | _, _, _, _, _, _, _ => none
  | _ => none

/-- `task_d.py`, `read_data`: skip the header, parse every line; there is
no error handling, so a bad line (or an empty file) aborts (`none`). -/
def read_data (lines : List (List Char)) : Option (List Row) :=
  match lines with
  | [] => none
  | _header :: rest => rest.mapM parse_line

/-- The `+=`-update one row performs on its day's totals in
`compute_daily_totals`: each Wh value is divided by 1000 *before* it is
added to the running sum. -/
def addRow (r : Row) (t : PhaseTotals) : PhaseTotals :=
  ⟨t.cons1 + (r.cons1 : ℚ) / 1000, t.cons2 + (r.cons2 : ℚ) / 1000,
   t.cons3 + (r.cons3 : ℚ) / 1000, t.prod1 + (r.prod1 : ℚ) / 1000,
   t.prod2 + (r.prod2 : ℚ) / 1000, t.prod3 + (r.prod3 : ℚ) / 1000⟩

/-- `task_d.py`, `compute_daily_totals`. -/
def compute_daily_totals (rows : List Row) : List (Date × PhaseTotals) :=
  rows.foldl (fun daily r => alistUpdate r.date (addRow r) daily) []

/-- `task_d.py`, `format_kwh`: two decimals, comma separator. -/
def format_kwh (value : ℚ) : String :=
  ⟨replaceChar '.' ',' (fixed2 value)⟩

end TaskD

namespace TaskE

/-- One row of `task_e.py`'s `read_data`: the raw timestamp string plus the
six Wh values converted by `float`. -/
structure Row where
  timestamp : List Char
  cons_p1 : ℚ
  cons_p2 : ℚ
  cons_p3 : ℚ
  prod_p1 : ℚ
  prod_p2 : ℚ
  prod_p3 : ℚ
deriving DecidableEq, Repr

/-- One loop body of `task_e.py`'s `read_data`.  Result:
`none` = a `float` conversion raised `ValueError` (which the caller turns
into discarding the whole load); `some none` = the line was skipped (blank
or not exactly 7 fields); `some (some row)` = a parsed row. -/
def parse_line (l : List Char) : Option (Option Row) :=
  let l' := pyStrip l
  if l' = [] then some none
  else
    match splitOnChar ';' l' with
    | [f0, f1, f2, f3, f4, f5, f6] =>
        match parsePyFloat f1, parsePyFloat f2, parsePyFloat f3,
              parsePyFloat f4, parsePyFloat f5, parsePyFloat f6 with
        | some c1, some c2, some c3, some p1, some p2, some p3 =>
            some (some ⟨f0, c1, c2, c3, p1, p2, p3⟩)
        | _, _, _, _, _, _ => none
    | _ => some none

/-- The data lines collected by `task_e.py`'s `read_data` loop; `none`
signals the `ValueError` that makes `read_data` return `[]`. -/
def read_aux : List (List Char) → Option (List Row)
  | [] => some []
  | l :: rest =>
      match parse_line l with
      | none => none
      | some none => read_aux rest
      | some (some r) => (read_aux rest).map (fun rs => r :: rs)

/-- `task_e.py`, `read_data`: skip the header; on *any* `ValueError` in the
body the whole load is discarded and `[]` is returned. -/
def read_data (lines : List (List Char)) : List Row :=
  match lines with
  | [] => []
  | _header :: rest =>
      match read_aux rest with
      | some rows => rows
      | none => []

/-- The `+=`-update one row performs on its day's totals in
`calculate_daily_summaries`: the *raw* Wh values are added, with no unit
conversion. -/
def addRow (r : Row) (t : PhaseTotals) : PhaseTotals :=
  ⟨t.cons1 + r.cons_p1, t.cons2 + r.cons_p2, t.cons3 + r.cons_p3,
   t.prod1 + r.prod_p1, t.prod2 + r.prod_p2, t.prod3 + r.prod_p3⟩

/-- `task_e.py`, `calculate_daily_summaries`: group by the date of each
row's timestamp (parsed here with `fromisoformat`) and accumulate the raw
Wh values; a timestamp that fails to parse raises (`none`). -/
def calculate_daily_summaries (data : List Row) :
    Option (List (Date × PhaseTotals)) :=
  data.foldlM
    (fun daily r =>
      (fromisoformat r.timestamp).map
        (fun dt => alistUpdate dt.date (addRow r) daily))
    []

/-- `task_e.py`, `convert_wh_to_kwh_and_format`: divide by 1000 *at
formatting time*, two decimals, comma separator. -/
def convert_wh_to_kwh_and_format (value_wh : ℚ) : String :=
  ⟨replaceChar '.' ',' (fixed2 (value_wh / 1000))⟩

/-- The grand-total accumulation of `task_e.py`'s `write_report`
(lines 229–236): iterate over the daily summaries adding every field into
six running totals. -/
def grand_totals (daily : List (Date × PhaseTotals)) : PhaseTotals :=
  daily.foldl (fun acc e => addT acc e.2) zeroTotals

/-- `task_e.py`, `format_date`: `f"{day.day:02d}.{day.month:02d}.{day.year}"`
— day and month zero-padded to two digits, year unpadded. -/
def format_date (day : Date) : String :=
  ⟨padNum 2 day.day ++ '.' :: padNum 2 day.month ++ '.' :: natToStr day.year⟩

end TaskE

namespace TaskF

/-- One record of `task_f.py`'s `read_data`: full timestamp, consumption,
production and temperature (this file's units are kWh and °C). -/
structure Rec where
  time : DateTime
  consumption : ℚ
  production : ℚ
  temperature : ℚ
deriving DecidableEq, Repr

/-- One loop body of `task_f.py`'s `read_data`: lines with fewer than 4
fields and lines with an unconvertible value are both skipped (`none`). -/
def parse_line (l : List Char) : Option Rec :=
  match splitOnChar ';' (pyStrip l) with
  | f0 :: f1 :: f2 :: f3 :: _ =>
      match fromisoformat (pyStrip f0),
            parsePyFloat (replaceChar ',' '.' (pyStrip f1)),
            parsePyFloat (replaceChar ',' '.' (pyStrip f2)),
            parsePyFloat (replaceChar ',' '.' (pyStrip f3)) with
      | some t, some c, some p, some temp => some ⟨t, c, p, temp⟩
      | _, _, _, _ => none
  | _ => none

/-- `task_f.py`, `read_data`: skip the header (an empty file raises an
uncaught `StopIteration`, hence `none`), then collect every line that
parses, skipping the rest. -/
def read_data (lines : List (List Char)) : Option (List Rec) :=
  match lines with
  | [] => none
  | _header :: rest => some (rest.filterMap parse_line)

/-- `task_f.py`, `format_date`: note the *unpadded* day and month. -/
def format_date (d : Date) : String :=
  ⟨natToStr d.day ++ '.' :: natToStr d.month ++ '.' :: natToStr d.year⟩

/-- `task_f.py`, `format_number`: two decimals, comma separator. -/
def format_number (value : ℚ) : String :=
  ⟨replaceChar '.' ',' (fixed2 value)⟩

/-- The component handling of `parse_date_input`: exactly three `.`-separated
parts, each converted with `int`, then validated by `date(year, month, day)`. -/
def parse_date_core : List (List Char) → Option Date
  | [p0, p1, p2] =>
      match parsePyInt p0, parsePyInt p1, parsePyInt p2 with
      | some day, some month, some year => mkDate year month day
      | _, _, _ => none
  | _ => none

/-- `task_f.py`, `parse_date_input`: split on `.`, require exactly three
components, convert with `int`, validate with `date(y, m, d)`. -/
def parse_date_input (date_str : String) : Option Date :=
  parse_date_core (splitOnChar '.' (pyStrip date_str.toList))

/-- `task_f.py`, `get_monthly_data`. -/
def get_monthly_data (data : List Rec) (month year : ℕ) : List Rec :=
  data.filter (fun r => r.time.date.month == month && r.time.date.year == year)

/-- The range filter of `create_daily_report`
(`start_date <= rec_date <= end_date`). -/
def range_data (data : List Rec) (start_date end_date : Date) : List Rec :=
  data.filter (fun r =>
    dateLeB start_date r.time.date && dateLeB r.time.date end_date)

/-- `sum(r["consumption"] for r in rows)`. -/
def sum_consumption (rows : List Rec) : ℚ :=
  rows.foldl (fun acc r => acc + r.consumption) 0

/-- `sum(r["production"] for r in rows)`. -/
def sum_production (rows : List Rec) : ℚ :=
  rows.foldl (fun acc r => acc + r.production) 0

/-- The average temperature of `create_daily_report` /
`create_monthly_report` / `create_yearly_report`: sum divided by count,
`0.0` for an empty row set. -/
def avg_temperature (rows : List Rec) : ℚ :=
  if rows ≠ [] then
    (rows.foldl (fun acc r => acc + r.temperature) 0) / rows.length
  else 0

/-- The separator line `"-" * 53`. -/
def dashes : String := ⟨List.replicate 53 '-'⟩

/-- The report body shared by the three `create_*_report` functions: a
header line and the three totals lines, between separator rules. -/
def report_lines (header : String) (rows : List Rec) : List String :=
  [dashes, header,
   "- Total consumption: " ++ format_number (sum_consumption rows) ++ " kWh",
   "- Total production: " ++ format_number (sum_production rows) ++ " kWh",
   "- Average temperature: " ++ format_number (avg_temperature rows) ++ " °C",
   dashes]

/-- The report `task_f.py`'s `create_daily_report` builds once both dates
have been collected. -/
def daily_report_lines (data : List Rec) (start_date end_date : Date) :
    List String :=
  report_lines
    ("Report for the period " ++ format_date start_date ++ "–" ++
      format_date end_date)
    (range_data data start_date end_date)

/-- The month-name table of `create_monthly_report`. -/
def month_names : List String :=
  ["", "January", "February", "March", "April", "May", "June",
   "July", "August", "September", "October", "November", "December"]

/-- The report `task_f.py`'s `create_monthly_report` builds once a valid
month has been collected (the year is fixed to 2025). -/
def monthly_report_lines (data : List Rec) (month : ℕ) : List String :=
  report_lines
    ("Report for the month: " ++ (month_names.getD month ""))
    (get_monthly_data data month 2025)

/-- `task_f.py`, `create_yearly_report` (no parameters). -/
def yearly_report_lines (data : List Rec) : List String :=
  report_lines "Report for the year: 2025" data

/-! ### The interactive session of `task_f.py`

The console dialogue is embedded as functions from the list of not yet
consumed `input()` answers to the pair (text written to the console, result).
A `none` result means the answers ran out, i.e. a real terminal would have
raised `EOFError`.  The text written includes both `print` payloads and
`input` prompts, in order. -/

/-- The text `show_main_menu` writes on each iteration. -/
def main_menu_text : List String :=
  ["\nChoose a report type:", "1) Daily summary for a date range",
   "2) Monthly summary for one month", "3) Full year 2025 summary",
   "4) Exit the program", "Your choice: "]

/-- The invalid-choice message of `show_main_menu`. -/
def invalid_main_msg : String := "Invalid choice. Please enter 1, 2, 3, or 4."

/-- `task_f.py`, `show_main_menu`: loop until the stripped answer is one of
`"1"`–`"4"`; invalid answers only print a message and re-prompt. -/
def show_main_menu : List String → List String × Option (String × List String)
  | [] => (main_menu_text, none)
  | c :: rest =>
      let choice := pyStripS c
      if choice ∈ ["1", "2", "3", "4"] then (main_menu_text, some (choice, rest))
      else
        let r := show_main_menu rest
        (main_menu_text ++ invalid_main_msg :: r.1, r.2)

/-- The text `show_sub_menu` writes on each iteration. -/
def sub_menu_text : List String :=
  ["\nWhat would you like to do next?",
   "1) Write the report to the file report.txt",
   "2) Create a new report", "3) Exit", "Your choice: "]

/-- The invalid-choice message of `show_sub_menu`. -/
def invalid_sub_msg : String := "Invalid choice. Please enter 1, 2, or 3."

/-- `task_f.py`, `show_sub_menu`. -/
def show_sub_menu : List String → List String × Option (String × List String)
  | [] => (sub_menu_text, none)
  | c :: rest =>
      let choice := pyStripS c
      if choice ∈ ["1", "2", "3"] then (sub_menu_text, some (choice, rest))
      else
        let r := show_sub_menu rest
        (sub_menu_text ++ invalid_sub_msg :: r.1, r.2)

/-- The invalid-date message of `create_daily_report`'s two input loops. -/
def invalid_date_msg : String := "Invalid date format. Please use dd.mm.yyyy"

/-- One `while True` date-input loop of `create_daily_report`: prompt until
`parse_date_input` succeeds. -/
def date_prompt_loop (prompt : String) :
    List String → List String × Option (Date × List String)
  | [] => ([prompt], none)
  | s :: rest =>
      match parse_date_input s with
      | some d => ([prompt], some (d, rest))
      | none =>
          let r := date_prompt_loop prompt rest
          (prompt :: invalid_date_msg :: r.1, r.2)

/-- The month-input loop of `create_monthly_report`: prompt until the
stripped answer is an integer in `[1, 12]`; a non-integer and an
out-of-range integer print different messages. -/
def month_prompt_loop :
    List String → List String × Option (ℤ × List String)
  | [] => (["Enter month number (1–12): "], none)
  | s :: rest =>
      match parsePyInt (pyStripS s).toList with
      | some m =>
          if 1 ≤ m ∧ m ≤ 12 then
            (["Enter month number (1–12): "], some (m, rest))
          else
            let r := month_prompt_loop rest
            ("Enter month number (1–12): " ::
              "Please enter a number between 1 and 12." :: r.1, r.2)
      | none =>
          let r := month_prompt_loop rest
          ("Enter month number (1–12): " ::
            "Invalid input. Please enter a number between 1 and 12." :: r.1, r.2)

/-- `task_f.py`, `create_daily_report`: collect the two dates, then build
the range report.  Result: (console text, `some` (report lines, unconsumed
answers)). -/
def create_daily_report (data : List Rec) (inputs : List String) :
    List String × Option (List String × List String) :=
  let s := date_prompt_loop "Enter start date (dd.mm.yyyy): " inputs
  match s.2 with
  | none => (s.1, none)
  | some (start_date, rest) =>
      let e := date_prompt_loop "Enter end date (dd.mm.yyyy): " rest
      match e.2 with
      | none => (s.1 ++ e.1, none)
      | some (end_date, rest2) =>
          (s.1 ++ e.1, some (daily_report_lines data start_date end_date, rest2))

/-- `task_f.py`, `create_monthly_report`: collect the month, then build the
monthly report. -/
def create_monthly_report (data : List Rec) (inputs : List String) :
    List String × Option (List String × List String) :=
  let m := month_prompt_loop inputs
  match m.2 with
  | none => (m.1, none)
  | some (month, rest) =>
      (m.1, some (monthly_report_lines data month.toNat, rest))

/-- `task_f.py`, `write_report_to_file`: the write either succeeds (success
message) or raises `IOError`, which is caught and reported as a message —
either way the function returns normally.  The boolean models whether the
destination can be opened for writing; the exception detail in the error
message is abstracted. -/
def write_report_to_file (write_ok : Bool) (_lines : List String) :
    List String :=
  if write_ok then ["Report written to report.txt"]
  else ["Error writing to file"]

/-- The sub-menu passage of `main` (lines 277–287): show the sub-menu; on
`"1"` write the report and fall back to the outer loop, on `"2"` fall back
to the outer loop, on `"3"` say goodbye and return.  Result: (console text,
`some` (back-to-main-menu?, unconsumed answers)). -/
def sub_phase (write_ok : Bool) (report : List String)
    (inputs : List String) : List String × Option (Bool × List String) :=
  let sm := show_sub_menu inputs
  match sm.2 with
  | none => (sm.1, none)
  | some (c, rest) =>
      if c = "1" then
        (sm.1 ++ write_report_to_file write_ok report, some (true, rest))
      else if c = "2" then (sm.1, some (true, rest))
      else (sm.1 ++ ["Thank you! Bye!"], some (false, rest))

/-- The farewell printed on exiting. -/
def bye_msg : String := "Thank you! Bye!"

/-- The `while True` loop of `task_f.py`'s `main`, with a fuel argument
bounding the number of outer iterations (each iteration consumes at least
one answer, so `inputs.length + 1` fuel is always enough; `main_session`
below supplies it).  Result: (console text, `true` iff the session ended by
an explicit exit choice rather than by running out of answers or fuel). -/
def sessionSteps (write_ok : Bool) (db : List Rec) :
    ℕ → List String → List String × Bool
  | 0, _ => ([], false)
  | fuel + 1, inputs =>
      let m := show_main_menu inputs
      match m.2 with
      | none => (m.1, false)
      | some (choice, rest) =>
          if choice = "4" then (m.1 ++ [bye_msg], true)
          else
            let rep :=
              if choice = "1" then create_daily_report db rest
              else if choice = "2" then create_monthly_report db rest
              else ([], some (yearly_report_lines db, rest))
            match rep.2 with
            | none => (m.1 ++ rep.1, false)
            | some (report, rest2) =>
                let s := sub_phase write_ok report rest2
                match s.2 with
                | none => (m.1 ++ rep.1 ++ report ++ s.1, false)
                | some (cont, rest3) =>
                    if cont then
                      let t := sessionSteps write_ok db fuel rest3
                      (m.1 ++ rep.1 ++ report ++ s.1 ++ t.1, t.2)
                    else (m.1 ++ rep.1 ++ report ++ s.1, true)

/-- `task_f.py`, `main`: read the data file (given as its lines; `none` if
that raises), report a load failure for an empty record set, otherwise run
the menu loop on the scripted answers. -/
def main_session (write_ok : Bool) (file_lines : List (List Char))
    (inputs : List String) : Option (List String × Bool) :=
  (read_data file_lines).map (fun db =>
    if db = [] then (["Error: Could not load data from 2025.csv"], true)
    else sessionSteps write_ok db (inputs.length + 1) inputs)

end TaskF

/-! ## Reference values for the aggregation claims

These definitions are the mathematical comparison objects the claims speak
about (raw per-day sums, whole-set totals); they are not part of the
embedded code. -/

/-- The raw Wh values of a `task_d.py` row, as per-phase totals. -/
def rawRowD (r : TaskD.Row) : PhaseTotals :=
  ⟨(r.cons1 : ℚ), (r.cons2 : ℚ), (r.cons3 : ℚ),
   (r.prod1 : ℚ), (r.prod2 : ℚ), (r.prod3 : ℚ)⟩

/-- The summed raw Wh values of the `task_d.py` rows of one calendar day. -/
def daySumRawD (rows : List TaskD.Row) (d : Date) : PhaseTotals :=
  ((rows.filter (fun r => r.date == d)).map rawRowD).foldr addT zeroTotals

/-- The raw Wh values of a `task_e.py` row, as per-phase totals. -/
def rawRowE (r : TaskE.Row) : PhaseTotals :=
  ⟨r.cons_p1, r.cons_p2, r.cons_p3, r.prod_p1, r.prod_p2, r.prod_p3⟩

/-- The calendar day of a `task_e.py` row's timestamp. -/
def rowDay (r : TaskE.Row) : Option Date :=
  (fromisoformat r.timestamp).map DateTime.date

/-- The summed raw Wh values of the `task_e.py` rows of one calendar day. -/
def daySumRawE (data : List TaskE.Row) (d : Date) : PhaseTotals :=
  ((data.filter (fun r => rowDay r == some d)).map rawRowE).foldr addT zeroTotals

/-- The total over a whole `task_e.py` record set, computed directly. -/
def totalRawE (data : List TaskE.Row) : PhaseTotals :=
  (data.map rawRowE).foldr addT zeroTotals

/-- The sum of the values of an association list of daily totals. -/
def valsSum (l : List (Date × PhaseTotals)) : PhaseTotals :=
  (l.map Prod.snd).foldr addT zeroTotals

/-! ## Concrete data used by the claims -/

/-- The reservation line of the spec's concrete scenario. -/
def moominLine : List Char :=
  ("201|Moomin Valley|moomin@whitevalley.org|0509876543|2025-11-12|09:00|2|" ++
    "18.50|True|Forest Area 1|2025-08-12 14:33:20").toList

/-- The Moomin reservation's raw fields with the `confirmed` field replaced
by an arbitrary token (for the boolean-conversion claim). -/
def moominFieldsWith (tok : List Char) : List (List Char) :=
  ["201".toList, "Moomin Valley".toList, "moomin@whitevalley.org".toList,
   "0509876543".toList, "2025-11-12".toList, "09:00".toList, "2".toList,
   "18.50".toList, tok, "Forest Area 1".toList,
   "2025-08-12 14:33:20".toList]

/-- The two metering lines of the spec's concrete scenario. -/
def meterLine1 : List Char := "2025-10-15T08:00:00;1000;500;250;0;0;0".toList

/-- The second metering line of the spec's concrete scenario. -/
def meterLine2 : List Char := "2025-10-15T09:00:00;1000;500;250;0;0;0".toList

/-- A `task_e.py` row holding the raw Wh values `1000/500/250`. -/
def rowE1000 : TaskE.Row :=
  ⟨"2025-10-15T08:00:00".toList, 1000, 500, 250, 0, 0, 0⟩

/-! ## Lemmas about per-phase totals and the daily dictionaries -/

theorem addT_zero_left (a : PhaseTotals) : addT zeroTotals a = a := by
  cases a; simp [addT, zeroTotals]

theorem addT_zero_right (a : PhaseTotals) : addT a zeroTotals = a := by
  cases a; simp [addT, zeroTotals]

theorem addT_comm (a b : PhaseTotals) : addT a b = addT b a := by
  cases a; cases b; simp [addT]
  refine ⟨?_, ?_, ?_, ?_, ?_, ?_⟩ <;> ring

theorem addT_assoc (a b c : PhaseTotals) :
    addT (addT a b) c = addT a (addT b c) := by
  cases a; cases b; cases c; simp [addT]
  refine ⟨?_, ?_, ?_, ?_, ?_, ?_⟩ <;> ring

theorem scaleT_zero (c : ℚ) : scaleT c zeroTotals = zeroTotals := by
  simp [scaleT, zeroTotals]

theorem scaleT_addT (c : ℚ) (a b : PhaseTotals) :
    scaleT c (addT a b) = addT (scaleT c a) (scaleT c b) := by
  cases a; cases b; simp [scaleT, addT]
  refine ⟨?_, ?_, ?_, ?_, ?_, ?_⟩ <;> ring

theorem alistFind_update (k : Date) (f : PhaseTotals → PhaseTotals)
    (l : List (Date × PhaseTotals)) (d : Date) :
    alistFind d (alistUpdate k f l) =
      if d = k then some (f (lookupTotals l k)) else alistFind d l := by
  induction l with
  | nil =>
      by_cases h : d = k
      · subst h; simp [alistUpdate, alistFind, lookupTotals]
      · simp [alistUpdate, alistFind, lookupTotals, h, Ne.symm h]
  | cons e rest ih =>
      obtain ⟨k1, v⟩ := e
      by_cases h1 : k1 = k
      · subst h1
        by_cases h2 : d = k1
        · subst h2
          simp [alistUpdate, alistFind, lookupTotals]
        · simp [alistUpdate, alistFind, lookupTotals, h2, Ne.symm h2]
      · by_cases h2 : d = k1
        · subst h2
          have h3 : ¬d = k := fun hc => h1 hc
          simp [alistUpdate, alistFind, lookupTotals, h1, h3]
        · simp [alistUpdate, alistFind, lookupTotals, h1, h2,
            Ne.symm h2, ih]

theorem lookupTotals_update (k : Date) (f : PhaseTotals → PhaseTotals)
    (l : List (Date × PhaseTotals)) (d : Date) :
    lookupTotals (alistUpdate k f l) d =
      if d = k then f (lookupTotals l k) else lookupTotals l d := by
  unfold lookupTotals
  rw [alistFind_update]
  by_cases h : d = k <;> simp [h, lookupTotals]

theorem valsSum_update (k : Date) (c : PhaseTotals)
    (l : List (Date × PhaseTotals)) :
    valsSum (alistUpdate k (fun t => addT t c) l) = addT (valsSum l) c := by
  induction l with
  | nil => simp [alistUpdate, valsSum, addT_zero_left, addT_zero_right]
  | cons e rest ih =>
      obtain ⟨k1, v⟩ := e
      by_cases h : k1 = k
      · subst h
        have hu : alistUpdate k1 (fun t => addT t c) ((k1, v) :: rest) =
            (k1, addT v c) :: rest := by simp [alistUpdate]
        rw [hu]
        simp only [valsSum, List.map_cons, List.foldr_cons]
        rw [addT_assoc, addT_comm c, ← addT_assoc]
      · simp only [alistUpdate, if_neg h, valsSum, List.map_cons,
          List.foldr_cons]
        have h2 := ih
        simp only [valsSum] at h2
        rw [h2, ← addT_assoc]

/-- Unfolding step for day sums built by filter/map/foldr. -/
theorem daySum_cons {α : Type} (key : α → Date) (g : α → PhaseTotals)
    (r : α) (rest : List α) (d : Date) :
    (((r :: rest).filter (fun x => key x == d)).map g).foldr addT zeroTotals =
      (if key r = d then
        addT (g r)
          (((rest.filter (fun x => key x == d)).map g).foldr addT zeroTotals)
      else
        ((rest.filter (fun x => key x == d)).map g).foldr addT zeroTotals) := by
  by_cases h : key r = d <;> simp [List.filter_cons, h]

/-- The daily dictionary built by a left fold of keyed updates: looking up a
day yields that day's summed contributions. -/
theorem foldl_update_lookup {α : Type} (key : α → Date)
    (g : α → PhaseTotals) (step : α → PhaseTotals → PhaseTotals)
    (hstep : ∀ r t, step r t = addT t (g r)) :
    ∀ (data : List α) (acc : List (Date × PhaseTotals)) (d : Date),
      lookupTotals
          (data.foldl (fun daily r => alistUpdate (key r) (step r) daily) acc)
          d =
        addT (lookupTotals acc d)
          (((data.filter (fun x => key x == d)).map g).foldr addT zeroTotals)
  | [], acc, d => by simp [addT_zero_right]
  | r :: rest, acc, d => by
      rw [List.foldl_cons,
        foldl_update_lookup key g step hstep rest
          (alistUpdate (key r) (step r) acc) d,
        daySum_cons key g r rest d]
      have hupd := lookupTotals_update (key r) (step r) acc d
      by_cases h : key r = d
      · subst h
        rw [if_pos rfl] at hupd
        rw [if_pos rfl, hupd, hstep, addT_assoc]
      · rw [if_neg (fun hc => h hc.symm)] at hupd
        rw [hupd, if_neg h]

/-! ## Aggregation lemmas for `task_d.py` and `task_e.py` -/

theorem taskD_addRow_eq (r : TaskD.Row) (t : PhaseTotals) :
    TaskD.addRow r t = addT t (scaleT (1 / 1000) (rawRowD r)) := by
  simp [TaskD.addRow, addT, scaleT, rawRowD]
  refine ⟨?_, ?_, ?_, ?_, ?_, ?_⟩ <;> ring

theorem taskE_addRow_eq (r : TaskE.Row) :
    TaskE.addRow r = fun t => addT t (rawRowE r) := rfl

theorem foldr_addT_map_scale {α : Type} (c : ℚ) (g : α → PhaseTotals) :
    ∀ l : List α,
      ((l.map fun r => scaleT c (g r)).foldr addT zeroTotals)
        = scaleT c ((l.map g).foldr addT zeroTotals)
  | [] => by simp [scaleT_zero]
  | r :: rest => by
      simp only [List.map_cons, List.foldr_cons,
        foldr_addT_map_scale c g rest, scaleT_addT]

/-- `task_d.py`'s daily dictionary holds, for every day, the raw Wh sums of
that day scaled by `1/1000`: dividing each value by 1000 before adding it
gives exactly the raw sum divided by 1000. -/
theorem taskD_lookup_daily (rows : List TaskD.Row) (d : Date) :
    lookupTotals (TaskD.compute_daily_totals rows) d
      = scaleT (1 / 1000) (daySumRawD rows d) := by
  unfold TaskD.compute_daily_totals
  rw [foldl_update_lookup TaskD.Row.date
      (fun r => scaleT (1 / 1000) (rawRowD r)) TaskD.addRow taskD_addRow_eq
      rows [] d]
  rw [show lookupTotals [] d = zeroTotals from rfl, addT_zero_left,
    foldr_addT_map_scale]
  rfl

/-- The step function of `task_e.py`'s `calculate_daily_summaries`, named
for the invariant proofs. -/
theorem taskE_calc_eq (data : List TaskE.Row) :
    TaskE.calculate_daily_summaries data =
      data.foldlM
        (fun daily r =>
          (fromisoformat r.timestamp).map
            (fun dt => alistUpdate dt.date (TaskE.addRow r) daily))
        [] := rfl

/-- Invariant of `task_e.py`'s daily summaries: looking up a day yields the
accumulator's entry plus that day's raw Wh sums (no unit conversion). -/
theorem taskE_calc_inv :
    ∀ (data : List TaskE.Row) (acc m : List (Date × PhaseTotals)),
      data.foldlM
          (fun daily r =>
            (fromisoformat r.timestamp).map
              (fun dt => alistUpdate dt.date (TaskE.addRow r) daily))
          acc = some m →
      ∀ d : Date,
        lookupTotals m d =
          addT (lookupTotals acc d)
            (((data.filter (fun r => rowDay r == some d)).map rawRowE).foldr
              addT zeroTotals)
  | [], acc, m, h, d => by
      simp only [List.foldlM_nil, Option.pure_def, Option.some.injEq] at h
      subst h
      simp [addT_zero_right]
  | r :: rest, acc, m, h, d => by
      rw [List.foldlM_cons] at h
      cases hp : fromisoformat r.timestamp with
      | none => rw [hp] at h; simp at h
      | some dt =>
          rw [hp] at h
          simp only [Option.map_some', Option.some_bind] at h
          have ih := taskE_calc_inv rest
            (alistUpdate dt.date (TaskE.addRow r) acc) m h d
          have hupd := lookupTotals_update dt.date (TaskE.addRow r) acc d
          by_cases hd : d = dt.date
          · subst hd
            rw [if_pos rfl] at hupd
            rw [ih, hupd, taskE_addRow_eq, addT_assoc]
            have hfc : (r :: rest).filter (fun x => rowDay x == some dt.date) =
                r :: rest.filter (fun x => rowDay x == some dt.date) := by
              simp [List.filter_cons, rowDay, hp]
            rw [hfc]
            simp only [List.map_cons, List.foldr_cons]
          · rw [if_neg hd] at hupd
            rw [ih, hupd]
            have hne : ¬dt.date = d := fun hc => hd hc.symm
            have hfc : (r :: rest).filter (fun x => rowDay x == some d) =
                rest.filter (fun x => rowDay x == some d) := by
              simp [List.filter_cons, rowDay, hp, hne]
            rw [hfc]

/-- `foldl`-to-`foldr` bridge for summing the values of a daily dictionary. -/
theorem foldl_addT_aux :
    ∀ (l : List (Date × PhaseTotals)) (acc : PhaseTotals),
      l.foldl (fun a e => addT a e.2) acc = addT acc (valsSum l)
  | [], acc => by simp [valsSum, addT_zero_right]
  | e :: rest, acc => by
      simp only [List.foldl_cons]
      rw [foldl_addT_aux rest (addT acc e.2)]
      simp only [valsSum, List.map_cons, List.foldr_cons]
      rw [addT_assoc]

/-- `task_e.py`'s grand-total loop sums exactly the dictionary's values. -/
theorem grand_totals_eq_valsSum (l : List (Date × PhaseTotals)) :
    TaskE.grand_totals l = valsSum l := by
  unfold TaskE.grand_totals
  rw [foldl_addT_aux l zeroTotals, addT_zero_left]

/-! ## Decimal numeral lemmas (for the date round-trip claim) -/

theorem digitVal_digitCharOf (d : ℕ) (h : d < 10) :
    digitVal? (digitCharOf d) = some d := by
  interval_cases d <;> rfl

theorem digitCharOf_isSome (d : ℕ) (h : d < 10) :
    (digitVal? (digitCharOf d)).isSome = true := by
  rw [digitVal_digitCharOf d h]; rfl

theorem digit_ne_of (c : Char) (h : (digitVal? c).isSome = true)
    (c0 : Char) (h0 : digitVal? c0 = none) : c ≠ c0 := by
  rintro rfl
  rw [h0] at h
  exact absurd h (by decide)

theorem digit_not_space (c : Char) (h : (digitVal? c).isSome = true) :
    isPySpace c = false := by
  have h1 := digit_ne_of c h ' ' (by decide)
  have h2 := digit_ne_of c h '\t' (by decide)
  have h3 := digit_ne_of c h '\n' (by decide)
  have h4 := digit_ne_of c h '\r' (by decide)
  simp [isPySpace, h1, h2, h3, h4]

theorem dot_not_space : isPySpace '.' = false := by decide

theorem dropWhile_eq_self_of (p : Char → Bool) :
    ∀ l : List Char, (∀ c ∈ l, p c = false) → l.dropWhile p = l
  | [], _ => rfl
  | c :: cs, h => by
      simp [List.dropWhile, h c (List.mem_cons_self c cs)]

theorem pyStrip_eq_self (l : List Char)
    (h : ∀ c ∈ l, isPySpace c = false) : pyStrip l = l := by
  unfold pyStrip
  rw [dropWhile_eq_self_of _ l h,
    dropWhile_eq_self_of _ l.reverse
      (fun c hc => h c (List.mem_reverse.mp hc)),
    List.reverse_reverse]

theorem natToStrAux_all_digits :
    ∀ (fuel n : ℕ) (acc : List Char),
      (∀ c ∈ acc, (digitVal? c).isSome = true) →
      ∀ c ∈ natToStrAux fuel n acc, (digitVal? c).isSome = true
  | 0, _, _, hacc => hacc
  | fuel + 1, n, acc, hacc => by
      by_cases h10 : n < 10
      · simp only [natToStrAux, if_pos h10]
        intro c hc
        rcases List.mem_cons.mp hc with rfl | hc
        · exact digitCharOf_isSome n h10
        · exact hacc c hc
      · simp only [natToStrAux, if_neg h10]
        exact natToStrAux_all_digits fuel (n / 10) _
          (by
            intro c hc
            rcases List.mem_cons.mp hc with rfl | hc
            · exact digitCharOf_isSome (n % 10) (Nat.mod_lt _ (by omega))
            · exact hacc c hc)

theorem natToStr_all_digits (n : ℕ) :
    ∀ c ∈ natToStr n, (digitVal? c).isSome = true :=
  natToStrAux_all_digits (n + 1) n [] (by simp)

theorem padNum_all_digits (w n : ℕ) :
    ∀ c ∈ padNum w n, (digitVal? c).isSome = true := by
  intro c hc
  unfold padNum at hc
  rcases List.mem_append.mp hc with hc | hc
  · rw [List.eq_of_mem_replicate hc]; decide
  · exact natToStr_all_digits n c hc

theorem parseDigitsAux_natToStrAux :
    ∀ (fuel n : ℕ) (tail : List Char) (v : ℕ), n < fuel →
      ∃ k : ℕ, 0 < k ∧
        parseDigitsAux (natToStrAux fuel n tail) v =
          parseDigitsAux tail (v * 10 ^ k + n)
  | 0, n, _, _, h => absurd h (by omega)
  | fuel + 1, n, tail, v, h => by
      by_cases h10 : n < 10
      · refine ⟨1, by omega, ?_⟩
        simp only [natToStrAux, if_pos h10, parseDigitsAux,
          digitVal_digitCharOf n h10]
        norm_num
      · have hrec : n / 10 < fuel := by omega
        obtain ⟨k, hk, hp⟩ := parseDigitsAux_natToStrAux fuel (n / 10)
          (digitCharOf (n % 10) :: tail) v hrec
        refine ⟨k + 1, by omega, ?_⟩
        simp only [natToStrAux, if_neg h10]
        rw [hp]
        simp only [parseDigitsAux,
          digitVal_digitCharOf (n % 10) (Nat.mod_lt _ (by omega))]
        congr 1
        calc (v * 10 ^ k + n / 10) * 10 + n % 10
            = v * (10 ^ k * 10) + (10 * (n / 10) + n % 10) := by ring
          _ = v * 10 ^ (k + 1) + n := by rw [Nat.div_add_mod, pow_succ]

theorem natToStrAux_ne_nil :
    ∀ (fuel n : ℕ) (acc : List Char), n < fuel →
      ∃ c cs, natToStrAux fuel n acc = c :: cs
  | 0, n, _, h => absurd h (by omega)
  | fuel + 1, n, acc, h => by
      by_cases h10 : n < 10
      · exact ⟨digitCharOf n, acc, by simp [natToStrAux, if_pos h10]⟩
      · have hrec : n / 10 < fuel := by omega
        obtain ⟨c, cs, hc⟩ := natToStrAux_ne_nil fuel (n / 10)
          (digitCharOf (n % 10) :: acc) hrec
        exact ⟨c, cs, by simp only [natToStrAux, if_neg h10]; exact hc⟩

theorem natToStr_ne_nil (n : ℕ) : natToStr n ≠ [] := by
  obtain ⟨c, cs, hc⟩ := natToStrAux_ne_nil (n + 1) n [] (by omega)
  rw [natToStr, hc]
  simp

theorem parseNatDigits_natToStr (n : ℕ) :
    parseNatDigits (natToStr n) = some n := by
  obtain ⟨k, _, hp⟩ := parseDigitsAux_natToStrAux (n + 1) n [] 0 (by omega)
  unfold parseNatDigits
  rw [if_neg (natToStr_ne_nil n), natToStr, hp]
  simp [parseDigitsAux]

theorem parseNatDigits_zero_cons (l : List Char) (h : l ≠ []) :
    parseNatDigits ('0' :: l) = parseNatDigits l := by
  unfold parseNatDigits
  rw [if_neg (by simp), if_neg h]
  cases l with
  | nil => exact absurd rfl h
  | cons c cs =>
      show parseDigitsAux ('0' :: c :: cs) 0 = parseDigitsAux (c :: cs) 0
      simp [parseDigitsAux, digitVal?]

theorem parsePyInt_digits (l : List Char) (hl : l ≠ [])
    (hd : ∀ c ∈ l, (digitVal? c).isSome = true) :
    parsePyInt l = (parseNatDigits l).map (fun n => (n : ℤ)) := by
  unfold parsePyInt
  rw [pyStrip_eq_self l (fun c hc => digit_not_space c (hd c hc))]
  cases l with
  | nil => exact absurd rfl hl
  | cons c cs =>
      have hc := hd c (List.mem_cons_self c cs)
      simp only [parsePyIntCore]
      rw [if_neg (digit_ne_of c hc '-' (by decide)),
        if_neg (digit_ne_of c hc '+' (by decide))]

theorem parsePyInt_natToStr (n : ℕ) :
    parsePyInt (natToStr n) = some (n : ℤ) := by
  rw [parsePyInt_digits (natToStr n) (natToStr_ne_nil n)
    (natToStr_all_digits n), parseNatDigits_natToStr]
  rfl

theorem natToStr_one_digit (d : ℕ) (h : d < 10) :
    natToStr d = [digitCharOf d] := by
  simp [natToStr, natToStrAux, if_pos h]

theorem padNum_two_lt_ten (d : ℕ) (h : d < 10) :
    padNum 2 d = '0' :: natToStr d := by
  unfold padNum
  rw [natToStr_one_digit d h]
  rfl

theorem natToStrAux_length :
    ∀ (fuel n : ℕ) (acc : List Char), n < fuel →
      acc.length + 1 ≤ (natToStrAux fuel n acc).length
  | 0, n, _, h => absurd h (by omega)
  | fuel + 1, n, acc, h => by
      by_cases h10 : n < 10
      · simp [natToStrAux, if_pos h10]
      · have hrec : n / 10 < fuel := by omega
        have := natToStrAux_length fuel (n / 10)
          (digitCharOf (n % 10) :: acc) hrec
        simp only [natToStrAux, if_neg h10]
        simp only [List.length_cons] at this
        omega

theorem padNum_two_ge_ten (d : ℕ) (h : 10 ≤ d) :
    padNum 2 d = natToStr d := by
  unfold padNum
  have h1 : 2 ≤ (natToStr d).length := by
    have h2 := natToStrAux_length (d + 1) d [] (by omega)
    unfold natToStr natToStrAux
    rw [if_neg (by omega)]
    have h3 := natToStrAux_length d (d / 10) [digitCharOf (d % 10)] (by omega)
    simpa using h3
  show List.replicate (2 - (natToStr d).length) '0' ++ natToStr d = natToStr d
  rw [show 2 - (natToStr d).length = 0 by omega]
  simp

theorem parsePyInt_padNum_two (d : ℕ) :
    parsePyInt (padNum 2 d) = some (d : ℤ) := by
  by_cases h10 : d < 10
  · rw [padNum_two_lt_ten d h10,
      parsePyInt_digits _ (by simp)
        (padNum_two_lt_ten d h10 ▸ padNum_all_digits 2 d),
      parseNatDigits_zero_cons _ (natToStr_ne_nil d),
      parseNatDigits_natToStr]
    rfl
  · rw [padNum_two_ge_ten d (by omega)]
    exact parsePyInt_natToStr d

/-! ## Splitting lemmas -/

theorem splitOnCharAux_no_sep (sep : Char) :
    ∀ (l acc : List Char), sep ∉ l →
      splitOnCharAux sep l acc = [acc.reverse ++ l]
  | [], acc, _ => by simp [splitOnCharAux]
  | c :: cs, acc, h => by
      have hc : ¬c = sep := fun hcs => h (hcs ▸ List.mem_cons_self c cs)
      simp only [splitOnCharAux, if_neg hc]
      rw [splitOnCharAux_no_sep sep cs (c :: acc)
        (fun hm => h (List.mem_cons_of_mem c hm))]
      simp

theorem splitOnCharAux_append (sep : Char) :
    ∀ (a acc r : List Char), sep ∉ a →
      splitOnCharAux sep (a ++ sep :: r) acc =
        (acc.reverse ++ a) :: splitOnCharAux sep r []
  | [], acc, r, _ => by simp [splitOnCharAux]
  | c :: cs, acc, r, h => by
      have hc : ¬c = sep := fun hcs => h (hcs ▸ List.mem_cons_self c cs)
      simp only [List.cons_append, splitOnCharAux, if_neg hc, List.append_eq]
      rw [splitOnCharAux_append sep cs (c :: acc) r
        (fun hm => h (List.mem_cons_of_mem c hm))]
      simp

theorem splitOnChar_three (sep : Char) (a b c : List Char)
    (ha : sep ∉ a) (hb : sep ∉ b) (hc : sep ∉ c) :
    splitOnChar sep (a ++ sep :: (b ++ sep :: c)) = [a, b, c] := by
  unfold splitOnChar
  rw [splitOnCharAux_append sep a [] _ ha,
    splitOnCharAux_append sep b [] c hb,
    splitOnCharAux_no_sep sep c [] hc]
  simp

theorem dot_not_mem_digits (l : List Char)
    (hd : ∀ c ∈ l, (digitVal? c).isSome = true) : '.' ∉ l := by
  intro hm
  exact absurd (hd '.' hm) (by decide)

/-! ## Date parsing and formatting lemmas -/

theorem mkDate_valid (y m d : ℕ) (h1 : 1 ≤ y) (h2 : y ≤ 9999)
    (h3 : 1 ≤ m) (h4 : m ≤ 12) (h5 : 1 ≤ d) (h6 : d ≤ daysInMonth y m) :
    mkDate (y : ℤ) (m : ℤ) (d : ℤ) = some ⟨y, m, d⟩ := by
  unfold mkDate
  rw [if_pos]
  · simp
  · refine ⟨by exact_mod_cast h1, by exact_mod_cast h2, by exact_mod_cast h3,
      by exact_mod_cast h4, by exact_mod_cast h5, ?_⟩
    simp only [Int.toNat_natCast]
    exact_mod_cast h6

theorem parse_date_core_three (p0 p1 p2 : List Char) :
    TaskF.parse_date_core [p0, p1, p2] =
      match parsePyInt p0, parsePyInt p1, parsePyInt p2 with
      | some day, some month, some year => mkDate year month day
      | _, _, _ => none := rfl

/-- The zero-padded `dd.mm.yyyy` rendering of a valid calendar date parses
back, through `task_f.py`'s `parse_date_input`, to exactly that date. -/
theorem parse_date_input_canonical (y m d : ℕ) (h1 : 1 ≤ y) (h2 : y ≤ 9999)
    (h3 : 1 ≤ m) (h4 : m ≤ 12) (h5 : 1 ≤ d) (h6 : d ≤ daysInMonth y m) :
    TaskF.parse_date_input
        ⟨padNum 2 d ++ '.' :: (padNum 2 m ++ '.' :: natToStr y)⟩ =
      some ⟨y, m, d⟩ := by
  unfold TaskF.parse_date_input
  have hsp : ∀ c ∈ padNum 2 d ++ '.' :: (padNum 2 m ++ '.' :: natToStr y),
      isPySpace c = false := by
    intro c hc
    rcases List.mem_append.mp hc with hc | hc
    · exact digit_not_space c (padNum_all_digits 2 d c hc)
    · rcases List.mem_cons.mp hc with rfl | hc
      · exact dot_not_space
      · rcases List.mem_append.mp hc with hc | hc
        · exact digit_not_space c (padNum_all_digits 2 m c hc)
        · rcases List.mem_cons.mp hc with rfl | hc
          · exact dot_not_space
          · exact digit_not_space c (natToStr_all_digits y c hc)
  rw [show (String.mk
        (padNum 2 d ++ '.' :: (padNum 2 m ++ '.' :: natToStr y))).toList
      = padNum 2 d ++ '.' :: (padNum 2 m ++ '.' :: natToStr y) from rfl,
    pyStrip_eq_self _ hsp,
    splitOnChar_three '.' _ _ _
      (dot_not_mem_digits _ (padNum_all_digits 2 d))
      (dot_not_mem_digits _ (padNum_all_digits 2 m))
      (dot_not_mem_digits _ (natToStr_all_digits y)),
    parse_date_core_three,
    parsePyInt_padNum_two d, parsePyInt_padNum_two m, parsePyInt_natToStr y]
  exact mkDate_valid y m d h1 h2 h3 h4 h5 h6

/-! ## Skip-behaviour lemmas for the loaders (`task_f.py`, `task_e.py`) -/

/-- `task_f.py`'s loader: a line that fails to parse is simply absent from
the result; the surrounding lines are unaffected. -/
theorem taskF_read_skips (hd : List Char) (xs ys : List (List Char))
    (bad : List Char) (hb : TaskF.parse_line bad = none) :
    TaskF.read_data (hd :: (xs ++ bad :: ys)) =
      TaskF.read_data (hd :: (xs ++ ys)) := by
  simp [TaskF.read_data, List.filterMap_append, List.filterMap_cons, hb]

/-- `task_e.py`'s loader: a line whose *field count* is wrong is skipped
(`parse_line` returns `some none`), leaving the rest of the load intact. -/
theorem taskE_read_aux_skips (bad : List Char)
    (hb : TaskE.parse_line bad = some none) :
    ∀ xs ys, TaskE.read_aux (xs ++ bad :: ys) = TaskE.read_aux (xs ++ ys)
  | [], ys => by simp [TaskE.read_aux, hb]
  | l :: xs, ys => by
      cases hp : TaskE.parse_line l with
      | none => simp [TaskE.read_aux, hp]
      | some o =>
          cases o with
          | none =>
              simp [TaskE.read_aux, hp, taskE_read_aux_skips bad hb xs ys]
          | some r =>
              simp [TaskE.read_aux, hp, taskE_read_aux_skips bad hb xs ys]

/-- `task_e.py`'s `read_data` at file level: a wrong-field-count line is
skipped and the remaining lines still load. -/
theorem taskE_read_skips_field_count (hd : List Char)
    (xs ys : List (List Char)) (bad : List Char)
    (hb : TaskE.parse_line bad = some none) :
    TaskE.read_data (hd :: (xs ++ bad :: ys)) =
      TaskE.read_data (hd :: (xs ++ ys)) := by
  simp [TaskE.read_data, taskE_read_aux_skips bad hb xs ys]

/-- Invariant of `task_e.py`'s daily summaries: the sum of all values of
the dictionary equals the accumulator's sum plus the direct total. -/
theorem taskE_calc_valsSum :
    ∀ (data : List TaskE.Row) (acc m : List (Date × PhaseTotals)),
      data.foldlM
          (fun daily r =>
            (fromisoformat r.timestamp).map
              (fun dt => alistUpdate dt.date (TaskE.addRow r) daily))
          acc = some m →
      valsSum m = addT (valsSum acc) (totalRawE data)
  | [], acc, m, h => by
      simp only [List.foldlM_nil, Option.pure_def, Option.some.injEq] at h
      subst h
      simp [totalRawE, addT_zero_right]
  | r :: rest, acc, m, h => by
      rw [List.foldlM_cons] at h
      cases hp : fromisoformat r.timestamp with
      | none => rw [hp] at h; simp at h
      | some dt =>
          rw [hp] at h
          simp only [Option.map_some', Option.some_bind] at h
          have ih := taskE_calc_valsSum rest
            (alistUpdate dt.date (TaskE.addRow r) acc) m h
          rw [ih, taskE_addRow_eq, valsSum_update]
          simp only [totalRawE, List.map_cons, List.foldr_cons]
          rw [addT_assoc, addT_comm (rawRowE r)]

/-! ## Equivalence of the two Task G implementations -/

theorem convert_gd_eq (fields : List (List Char)) :
    TaskGD.convert_reservation_data fields =
      (TaskGC.Reservation.init fields).map gcToGd := by
  match fields with
  | [] | [_] | [_, _] | [_, _, _] | [_, _, _, _] | [_, _, _, _, _]
  | [_, _, _, _, _, _] | [_, _, _, _, _, _, _] | [_, _, _, _, _, _, _, _]
  | [_, _, _, _, _, _, _, _, _] | [_, _, _, _, _, _, _, _, _, _] => rfl
  | f0 :: f1 :: f2 :: f3 :: f4 :: f5 :: f6 :: f7 :: f8 :: f9 :: f10 :: rest =>
      simp only [TaskGD.convert_reservation_data, TaskGC.Reservation.init]
      cases parsePyInt f0 <;> cases strptimeDate f4 <;>
        cases strptimeTime f5 <;> cases parsePyInt f6 <;>
        cases parsePyFloat f7 <;> cases strptimeDateTime (pyStrip f10) <;> rfl

theorem fetch_gd_eq :
    ∀ lines : List (List Char),
      TaskGD.fetch_reservations lines =
        (TaskGC.fetch_reservations lines).map (List.map gcToGd)
  | [] => rfl
  | l :: rest => by
      unfold TaskGD.fetch_reservations TaskGC.fetch_reservations
      by_cases hb : pyStrip l = []
      · simp only [if_pos hb]
        exact fetch_gd_eq rest
      · simp only [if_neg hb]
        rw [convert_gd_eq (splitOnChar '|' l)]
        cases TaskGC.Reservation.init (splitOnChar '|' l) with
        | none => rfl
        | some r =>
            simp only [Option.map_some']
            rw [fetch_gd_eq rest]
            cases TaskGC.fetch_reservations rest <;> rfl

theorem sec_confirmed_eq (rs : List TaskGC.Reservation) :
    TaskGD.confirmed_reservations (rs.map gcToGd) =
      TaskGC.confirmed_reservations rs := by
  unfold TaskGD.confirmed_reservations TaskGC.confirmed_reservations
  rw [List.filterMap_map]
  rfl

theorem sec_long_eq (rs : List TaskGC.Reservation) :
    TaskGD.long_reservations (rs.map gcToGd) = TaskGC.long_reservations rs := by
  unfold TaskGD.long_reservations TaskGC.long_reservations
  rw [List.filterMap_map]
  rfl

theorem sec_status_eq (rs : List TaskGC.Reservation) :
    TaskGD.confirmation_statuses (rs.map gcToGd) =
      TaskGC.confirmation_statuses rs := by
  unfold TaskGD.confirmation_statuses TaskGC.confirmation_statuses
  rw [List.map_map]
  rfl

theorem count_fold_eq :
    ∀ (rs : List TaskGC.Reservation) (acc : ℕ),
      rs.foldl (fun n r => if r.confirmed then n + 1 else n) acc =
        acc + ((rs.map gcToGd).filter (fun r => r.confirmed)).length
  | [], acc => by simp
  | r :: rest, acc => by
      simp only [List.foldl_cons, List.map_cons, List.filter_cons]
      by_cases hc : r.confirmed
      · rw [if_pos hc, count_fold_eq rest (acc + 1)]
        have : (TaskGD.ResDict.confirmed (gcToGd r)) = true := hc
        rw [if_pos this]
        simp only [List.length_cons]
        omega
      · rw [if_neg hc, count_fold_eq rest acc]
        have : ¬(TaskGD.ResDict.confirmed (gcToGd r)) = true := hc
        rw [if_neg this]

theorem sec_summary_eq (rs : List TaskGC.Reservation) :
    TaskGD.confirmation_summary (rs.map gcToGd) =
      TaskGC.confirmation_summary rs := by
  unfold TaskGD.confirmation_summary TaskGC.confirmation_summary
  rw [count_fold_eq rs 0, List.length_map]
  simp

theorem revenue_fold_eq :
    ∀ (rs : List TaskGC.Reservation) (acc : ℚ),
      (rs.map gcToGd).foldl
          (fun acc r =>
            if r.confirmed then acc + (r.durationHours : ℚ) * r.price
            else acc) acc =
        rs.foldl
          (fun acc r => if r.confirmed then acc + r.revenue else acc) acc
  | [], _ => rfl
  | r :: rest, acc => by
      simp only [List.map_cons, List.foldl_cons]
      exact revenue_fold_eq rest _

theorem sec_revenue_eq (rs : List TaskGC.Reservation) :
    TaskGD.total_revenue (rs.map gcToGd) = TaskGC.total_revenue rs := by
  unfold TaskGD.total_revenue TaskGC.total_revenue
  rw [revenue_fold_eq rs 0]

/-! ## Session lemmas for `task_f.py` -/

/-- An invalid answer at the main menu prints the menu and the
invalid-choice message, then the loop continues unchanged. -/
theorem show_main_menu_invalid (c : String) (rest : List String)
    (hc : pyStripS c ∉ (["1", "2", "3", "4"] : List String)) :
    TaskF.show_main_menu (c :: rest) =
      (TaskF.main_menu_text ++
         TaskF.invalid_main_msg :: (TaskF.show_main_menu rest).1,
       (TaskF.show_main_menu rest).2) := by
  simp only [TaskF.show_main_menu, if_neg hc]

/-- An invalid answer at the main menu leaves the whole session unchanged
apart from the extra re-prompt text: no state changes and no crash. -/
theorem sessionSteps_invalid_cons (w : Bool) (db : List TaskF.Rec)
    (fuel : ℕ) (c : String) (rest : List String)
    (hc : pyStripS c ∉ (["1", "2", "3", "4"] : List String)) :
    TaskF.sessionSteps w db (fuel + 1) (c :: rest) =
      (TaskF.main_menu_text ++
         TaskF.invalid_main_msg :: (TaskF.sessionSteps w db (fuel + 1) rest).1,
       (TaskF.sessionSteps w db (fuel + 1) rest).2) := by
  conv_lhs => rw [TaskF.sessionSteps]
  conv_rhs => rw [TaskF.sessionSteps]
  rw [show_main_menu_invalid c rest hc]
  cases hsm : (TaskF.show_main_menu rest).2 with
  | none => simp
  | some pr =>
      obtain ⟨choice, rest2⟩ := pr
      simp only
      by_cases h4 : choice = "4"
      · simp [h4, List.append_assoc]
      · simp only [if_neg h4]
        cases hrep : (if choice = "1" then TaskF.create_daily_report db rest2
            else if choice = "2" then TaskF.create_monthly_report db rest2
            else ([], some (TaskF.yearly_report_lines db, rest2))).2 with
        | none => simp [List.append_assoc]
        | some pr2 =>
            obtain ⟨report, rest3⟩ := pr2
            simp only
            cases hsp : (TaskF.sub_phase w report rest3).2 with
            | none => simp [List.append_assoc]
            | some pr3 =>
                obtain ⟨cont, rest4⟩ := pr3
                cases cont <;> simp [List.append_assoc]

/-! ## Date-order and empty-report lemmas for `task_f.py` -/

theorem dateLeB_iff (a b : Date) :
    dateLeB a b = true ↔
      (a.year < b.year ∨ (a.year = b.year ∧
        (a.month < b.month ∨ (a.month = b.month ∧ a.day ≤ b.day)))) := by
  simp [dateLeB, Nat.blt_eq, Nat.ble_eq]

theorem dateLeB_trans (a b c : Date) (h1 : dateLeB a b = true)
    (h2 : dateLeB b c = true) : dateLeB a c = true := by
  rw [dateLeB_iff] at *
  omega

/-- The report body over an empty record selection: zero totals, zero
average, well-formed lines. -/
theorem report_lines_empty (header : String) :
    TaskF.report_lines header [] =
      [TaskF.dashes, header, "- Total consumption: 0,00 kWh",
       "- Total production: 0,00 kWh", "- Average temperature: 0,00 °C",
       TaskF.dashes] := by
  unfold TaskF.report_lines
  rw [show "- Total consumption: " ++
        TaskF.format_number (TaskF.sum_consumption []) ++ " kWh" =
      "- Total consumption: 0,00 kWh" from by decide!,
    show "- Total production: " ++
        TaskF.format_number (TaskF.sum_production []) ++ " kWh" =
      "- Total production: 0,00 kWh" from by decide!,
    show "- Average temperature: " ++
        TaskF.format_number (TaskF.avg_temperature []) ++ " °C" =
      "- Average temperature: 0,00 °C" from by decide!]

/-- A selector that matches no record filters to the empty list. -/
theorem range_data_nil (data : List TaskF.Rec) (s e : Date)
    (h : ∀ r ∈ data,
      (dateLeB s r.time.date && dateLeB r.time.date e) = false) :
    TaskF.range_data data s e = [] := by
  unfold TaskF.range_data
  rw [List.filter_eq_nil_iff]
  intro r hr
  rw [h r hr]
  simp

/-- A reversed range (end before start) matches no record. -/
theorem range_data_reversed (data : List TaskF.Rec) (s e : Date)
    (h : dateLeB s e = false) : TaskF.range_data data s e = [] := by
  apply range_data_nil
  intro r _
  cases h1 : dateLeB s r.time.date <;> cases h2 : dateLeB r.time.date e <;>
    simp
  exact absurd (dateLeB_trans s r.time.date e h1 h2) (by rw [h]; simp)

/-! ## The claims -/

/-- **C1** (code bug in `task_c.py`): on the spec's concrete reservation
(durationHours = 2, price = 18.50, confirmed), `task_g_dict.py` reports the
revenue `durationHours × price = 37.00` as the claim states, but
`task_c.py`'s `total_revenue` sums the `price` field alone and reports
`18,50 €` — the confirmed reservation contributes 18.50, not 37.00. -/
theorem claim_C1_revenue_divergence :
    (TaskGD.fetch_reservations [moominLine]).map TaskGD.total_revenue_value
        = some 37 ∧
    (TaskGD.fetch_reservations [moominLine]).map TaskGD.total_revenue
        = some "Total revenue from confirmed reservations: 37,00 €" ∧
    (TaskC.fetch_reservations [moominLine]).map TaskC.total_revenue_value
        = some (37 / 2) ∧
    (TaskC.fetch_reservations [moominLine]).map TaskC.total_revenue_line
        = some "Total revenue from confirmed reservations: 18,50 €" ∧
    (37 : ℚ) / 2 ≠ 37 := by
  decide!

/-- **C2, counterexample**: in `task_e.py`'s `read_data` a single line with
an unconvertible value (`x` as a float) makes the whole load return `[]`,
discarding the record parsed from the good line — and `task_c.py`'s
`fetch_reservations` aborts outright on a malformed line.  The claim's
"skip the line and continue" holds only for `task_f.py`. -/
theorem claim_C2_counterexample :
    TaskE.read_data ["ts;c1;c2;c3;p1;p2;p3".toList, meterLine1,
        "2025-10-15T09:00:00;x;0;0;0;0;0".toList] = [] ∧
    TaskE.read_data ["ts;c1;c2;c3;p1;p2;p3".toList, meterLine1] =
      [rowE1000] ∧
    TaskC.fetch_reservations [moominLine, "badline".toList] = none := by
  decide!

/-- **C2, amended**: `task_f.py`'s `read_data` skips any line that fails to
parse and keeps the records of all other lines; `task_e.py`'s `read_data`
skips a line only when its *field count* is wrong (an unconvertible value
still aborts the whole load, and `task_c.py` aborts on any bad line). -/
theorem claim_C2_amended :
    (∀ (hd bad : List Char) (xs ys : List (List Char)),
      TaskF.parse_line bad = none →
      TaskF.read_data (hd :: (xs ++ bad :: ys)) =
        TaskF.read_data (hd :: (xs ++ ys))) ∧
    (∀ (hd bad : List Char) (xs ys : List (List Char)),
      TaskE.parse_line bad = some none →
      TaskE.read_data (hd :: (xs ++ bad :: ys)) =
        TaskE.read_data (hd :: (xs ++ ys))) :=
  ⟨fun hd bad xs ys hb => taskF_read_skips hd xs ys bad hb,
   fun hd bad xs ys hb => taskE_read_skips_field_count hd xs ys bad hb⟩

/-- **C2, witness**: concrete instances of the amended claim. -/
theorem claim_C2_witness :
    TaskF.parse_line "x;y;z;w".toList = none ∧
    TaskF.read_data ["h".toList, "x;y;z;w".toList,
        "2025-10-15T08:00:00;1,5;0,5;21,0".toList] =
      TaskF.read_data ["h".toList,
        "2025-10-15T08:00:00;1,5;0,5;21,0".toList] ∧
    TaskE.parse_line "1;2".toList = some none ∧
    TaskE.read_data ["h".toList, "1;2".toList, meterLine1] =
      TaskE.read_data ["h".toList, meterLine1] := by
  have h1 : TaskF.parse_line "x;y;z;w".toList = none := by decide!
  have h2 : TaskE.parse_line "1;2".toList = some none := by decide!
  exact ⟨h1, claim_C2_amended.1 _ _ [] _ h1, h2,
    claim_C2_amended.2 _ _ [] _ h2⟩

/-- **C3, counterexample**: `task_e.py`'s `calculate_daily_summaries` does
*not* divide by 1000 at accumulation time: a single row with raw value
1000 Wh yields a daily total of 1000 (Wh), not `1000 / 1000` kWh as the
claim requires of both cited implementations. -/
theorem claim_C3_counterexample :
    (TaskE.calculate_daily_summaries [rowE1000]).map
        (fun m => lookupTotals m ⟨2025, 10, 15⟩) =
      some ⟨1000, 500, 250, 0, 0, 0⟩ ∧
    (1000 : ℚ) ≠ 1000 / 1000 := by
  decide!

/-- **C3, amended**: `task_d.py` accumulates in kWh (each raw Wh value is
divided by 1000 before being added), which over exact arithmetic equals the
raw per-day sum scaled by 1/1000; `task_e.py` accumulates the *raw Wh*
values and divides by 1000 only at formatting time.  On the spec's two
concrete lines both pipelines render the day's consumption as
`2,00 / 1,00 / 0,50` kWh. -/
theorem claim_C3_amended :
    (∀ (rows : List TaskD.Row) (d : Date),
      lookupTotals (TaskD.compute_daily_totals rows) d =
        scaleT (1 / 1000) (daySumRawD rows d)) ∧
    (∀ (data : List TaskE.Row) (m : List (Date × PhaseTotals)),
      TaskE.calculate_daily_summaries data = some m →
      ∀ d : Date, lookupTotals m d = daySumRawE data d) ∧
    ((TaskD.read_data ["h".toList, meterLine1, meterLine2]).map
        TaskD.compute_daily_totals =
      some [(⟨2025, 10, 15⟩, ⟨2, 1, 1 / 2, 0, 0, 0⟩)]) ∧
    (TaskD.format_kwh 2 = "2,00" ∧ TaskD.format_kwh 1 = "1,00" ∧
      TaskD.format_kwh (1 / 2) = "0,50") ∧
    ((TaskE.calculate_daily_summaries
        (TaskE.read_data ["h".toList, meterLine1, meterLine2])).map
        (fun m =>
          (lookupTotals m ⟨2025, 10, 15⟩,
           TaskE.convert_wh_to_kwh_and_format
             (lookupTotals m ⟨2025, 10, 15⟩).cons1,
           TaskE.convert_wh_to_kwh_and_format
             (lookupTotals m ⟨2025, 10, 15⟩).cons2,
           TaskE.convert_wh_to_kwh_and_format
             (lookupTotals m ⟨2025, 10, 15⟩).cons3)) =
      some (⟨2000, 1000, 500, 0, 0, 0⟩, "2,00", "1,00", "0,50")) := by
  refine ⟨taskD_lookup_daily, ?_, by decide!, by decide!, by decide!⟩
  intro data m h d
  have h2 := taskE_calc_inv data [] m h d
  rw [show lookupTotals [] d = zeroTotals from rfl, addT_zero_left] at h2
  exact h2

/-- **C3, witness**: a concrete instance of the amended claim's
hypothesised conjunct. -/
theorem claim_C3_witness :
    TaskE.calculate_daily_summaries [rowE1000] =
      some [(⟨2025, 10, 15⟩, ⟨1000, 500, 250, 0, 0, 0⟩)] ∧
    lookupTotals [(⟨2025, 10, 15⟩, ⟨1000, 500, 250, 0, 0, 0⟩)]
        ⟨2025, 10, 15⟩ =
      daySumRawE [rowE1000] ⟨2025, 10, 15⟩ := by
  have h : TaskE.calculate_daily_summaries [rowE1000] =
      some [(⟨2025, 10, 15⟩, ⟨1000, 500, 250, 0, 0, 0⟩)] := by decide!
  exact ⟨h, claim_C3_amended.2.1 [rowE1000] _ h ⟨2025, 10, 15⟩⟩

/-- **C4, counterexample**: `task_f.py`'s `format_date` does not zero-pad,
so parsing the valid `dd.mm.yyyy` string `05.03.2025` and formatting it
back yields `5.3.2025`, not the original string. -/
theorem claim_C4_counterexample :
    (TaskF.parse_date_input "05.03.2025").map TaskF.format_date =
      some "5.3.2025" ∧
    ("5.3.2025" : String) ≠ "05.03.2025" := by
  decide!

/-- **C4, amended**: the round-trip `format (parse d) = d` holds for every
valid zero-padded `dd.mm.yyyy` string when the *zero-padding* formatter of
`task_e.py` is used; with `task_f.py`'s unpadded `format_date` it holds
only when both day and month are at least 10 (so that padding does not
matter), and fails for padded inputs with day or month below 10. -/
theorem claim_C4_amended :
    (∀ y m d : ℕ, 1 ≤ y → y ≤ 9999 → 1 ≤ m → m ≤ 12 → 1 ≤ d →
      d ≤ daysInMonth y m →
      (TaskF.parse_date_input
          ⟨padNum 2 d ++ '.' :: (padNum 2 m ++ '.' :: natToStr y)⟩).map
          TaskE.format_date =
        some ⟨padNum 2 d ++ '.' :: (padNum 2 m ++ '.' :: natToStr y)⟩) ∧
    (∀ y m d : ℕ, 1 ≤ y → y ≤ 9999 → 10 ≤ m → m ≤ 12 → 10 ≤ d →
      d ≤ daysInMonth y m →
      (TaskF.parse_date_input
          ⟨padNum 2 d ++ '.' :: (padNum 2 m ++ '.' :: natToStr y)⟩).map
          TaskF.format_date =
        some ⟨padNum 2 d ++ '.' :: (padNum 2 m ++ '.' :: natToStr y)⟩) := by
  constructor
  · intro y m d h1 h2 h3 h4 h5 h6
    rw [parse_date_input_canonical y m d h1 h2 h3 h4 h5 h6]
    simp [TaskE.format_date, List.append_assoc, List.cons_append]
  · intro y m d h1 h2 h3 h4 h5 h6
    rw [parse_date_input_canonical y m d h1 h2 (by omega) h4 (by omega) h6]
    simp only [Option.map_some', Option.some.injEq]
    show TaskF.format_date ⟨y, m, d⟩ = _
    unfold TaskF.format_date
    rw [padNum_two_ge_ten d h5, padNum_two_ge_ten m h3]
    simp [List.append_assoc, List.cons_append]

/-- **C4, witness**: concrete instances of the amended claim. -/
theorem claim_C4_witness :
    (TaskF.parse_date_input "05.03.2025").map TaskE.format_date =
      some "05.03.2025" ∧
    (TaskF.parse_date_input "12.11.2025").map TaskF.format_date =
      some "12.11.2025" := by
  constructor
  · have h := claim_C4_amended.1 2025 3 5 (by omega) (by omega) (by omega)
      (by omega) (by omega) (by decide!)
    rw [show ("05.03.2025" : String) =
        ⟨padNum 2 5 ++ '.' :: (padNum 2 3 ++ '.' :: natToStr 2025)⟩ from by
          decide!]
    exact h
  · have h := claim_C4_amended.2 2025 11 12 (by omega) (by omega) (by omega)
      (by omega) (by omega) (by decide!)
    rw [show ("12.11.2025" : String) =
        ⟨padNum 2 12 ++ '.' :: (padNum 2 11 ++ '.' :: natToStr 2025)⟩ from by
          decide!]
    exact h

/-- **C5, counterexample**: `task_b.py`'s paid-flag conversion lowercases
the token, so `TRUE` (and `true`) map to *true* there, although the claim
requires every token other than the exact literal `True` to map to false. -/
theorem claim_C5_counterexample :
    TaskB.paidToken "TRUE".toList = true ∧
    TaskB.paidToken "true".toList = true ∧
    ("TRUE" : String) ≠ "True" := by
  decide!

/-- **C5, amended**: in the reservation converters the boolean field is
never an error and is case-sensitive — `task_c.py` compares the raw token
with `True`, `task_g` compares the stripped token with `True`, so `true`
and `TRUE` map to false there; `task_b.py`'s paid flag alone is
case-insensitive (see the counterexample). -/
theorem claim_C5_amended :
    (∀ tok : List Char,
      (TaskC.convert_reservation_data (moominFieldsWith tok)).map
          TaskC.Res.confirmed =
        some (decide (tok = "True".toList))) ∧
    (∀ tok : List Char,
      (TaskGD.convert_reservation_data (moominFieldsWith tok)).map
          TaskGD.ResDict.confirmed =
        some (decide (pyStrip tok = "True".toList))) ∧
    (∀ tok : List Char,
      (TaskGC.Reservation.init (moominFieldsWith tok)).map
          TaskGC.Reservation.confirmed =
        some (decide (pyStrip tok = "True".toList))) ∧
    ((TaskC.convert_reservation_data (moominFieldsWith "true".toList)).map
        TaskC.Res.confirmed = some false ∧
      (TaskC.convert_reservation_data (moominFieldsWith "TRUE".toList)).map
        TaskC.Res.confirmed = some false ∧
      (TaskGD.convert_reservation_data (moominFieldsWith "true".toList)).map
        TaskGD.ResDict.confirmed = some false ∧
      (TaskGD.convert_reservation_data (moominFieldsWith "TRUE".toList)).map
        TaskGD.ResDict.confirmed = some false ∧
      (TaskGD.convert_reservation_data (moominFieldsWith "True".toList)).map
        TaskGD.ResDict.confirmed = some true) := by
  refine ⟨fun tok => rfl, fun tok => rfl, fun tok => rfl, by decide!⟩

/-- **C6, counterexample**: after a failed report write the next thing on
the console is the *main* menu (`Choose a report type:`), not the sub-menu
(`What would you like to do next?`) that the claim promises a return to. -/
theorem claim_C6_counterexample :
    (TaskF.sessionSteps false [] 4 ["3", "1", "4"]).1.get? 17 =
      some "Error writing to file" ∧
    (TaskF.sessionSteps false [] 4 ["3", "1", "4"]).1.get? 18 =
      some "\nChoose a report type:" ∧
    ("\nChoose a report type:" : String) ≠
      "\nWhat would you like to do next?" := by
  decide!

/-- **C6, amended**: a failing write is caught and reported as a console
message, the session then continues at the *main* menu (not the sub-menu),
and it ends normally on the user's exit choice — the failure is never
fatal. -/
theorem claim_C6_amended (db : List TaskF.Rec) (fuel : ℕ) :
    TaskF.sessionSteps false db (fuel + 2) ["3", "1", "4"] =
      (TaskF.main_menu_text ++ TaskF.yearly_report_lines db ++
        TaskF.sub_menu_text ++ ["Error writing to file"] ++
        TaskF.main_menu_text ++ ["Thank you! Bye!"], true) := by
  have h3 : TaskF.show_main_menu ["3", "1", "4"] =
      (TaskF.main_menu_text, some ("3", ["1", "4"])) := by decide!
  have h4 : TaskF.show_main_menu ["4"] =
      (TaskF.main_menu_text, some ("4", [])) := by decide!
  have hsub : TaskF.show_sub_menu ["1", "4"] =
      (TaskF.sub_menu_text, some ("1", ["4"])) := by decide!
  simp [TaskF.sessionSteps, h3, h4, hsub, TaskF.sub_phase,
    TaskF.write_report_to_file, TaskF.bye_msg, List.append_assoc]

/-- **C7**: an answer that is not one of the four menu choices makes
`show_main_menu` print the invalid-choice message and re-prompt, with no
other effect; feeding `x`, `5`, `1` re-prompts twice and then the whole
session proceeds exactly as if `1` had been entered first. -/
theorem claim_C7_menu_robustness :
    (∀ rest : List String,
      TaskF.show_main_menu ("x" :: "5" :: "1" :: rest) =
        (TaskF.main_menu_text ++ TaskF.invalid_main_msg ::
          (TaskF.main_menu_text ++ TaskF.invalid_main_msg ::
            TaskF.main_menu_text),
         some ("1", rest))) ∧
    (∀ rest : List String,
      TaskF.show_main_menu ("1" :: rest) =
        (TaskF.main_menu_text, some ("1", rest))) ∧
    (∀ (c : String) (rest : List String),
      pyStripS c ∉ (["1", "2", "3", "4"] : List String) →
      TaskF.show_main_menu (c :: rest) =
        (TaskF.main_menu_text ++
           TaskF.invalid_main_msg :: (TaskF.show_main_menu rest).1,
         (TaskF.show_main_menu rest).2)) ∧
    (∀ (w : Bool) (db : List TaskF.Rec) (fuel : ℕ) (rest : List String),
      TaskF.sessionSteps w db (fuel + 1) ("x" :: "5" :: "1" :: rest) =
        (TaskF.main_menu_text ++ TaskF.invalid_main_msg ::
          (TaskF.main_menu_text ++ TaskF.invalid_main_msg ::
            (TaskF.sessionSteps w db (fuel + 1) ("1" :: rest)).1),
         (TaskF.sessionSteps w db (fuel + 1) ("1" :: rest)).2)) := by
  refine ⟨?_, ?_, show_main_menu_invalid, ?_⟩
  · intro rest
    rw [show_main_menu_invalid "x" _ (by decide!),
      show_main_menu_invalid "5" _ (by decide!)]
    rfl
  · intro rest
    rfl
  · intro w db fuel rest
    rw [sessionSteps_invalid_cons w db fuel "x" _ (by decide!),
      sessionSteps_invalid_cons w db fuel "5" _ (by decide!)]

/-- **C7, witness**: a concrete instance of the hypothesised conjunct. -/
theorem claim_C7_witness :
    pyStripS "x" ∉ (["1", "2", "3", "4"] : List String) ∧
    TaskF.show_main_menu ["x", "1"] =
      (TaskF.main_menu_text ++
         TaskF.invalid_main_msg :: (TaskF.show_main_menu ["1"]).1,
       (TaskF.show_main_menu ["1"]).2) := by
  have h : pyStripS "x" ∉ (["1", "2", "3", "4"] : List String) := by decide!
  exact ⟨h, claim_C7_menu_robustness.2.2.1 "x" ["1"] h⟩

/-- **C8**: a period selector that matches no record — including a reversed
date range whose start is after its end — yields zero totals, an average
temperature of exactly 0, and a well-formed report, for both the
daily-range report and the monthly report. -/
theorem claim_C8_empty_selection :
    (∀ (data : List TaskF.Rec) (s e : Date),
      (∀ r ∈ data,
        (dateLeB s r.time.date && dateLeB r.time.date e) = false) →
      TaskF.range_data data s e = [] ∧
      TaskF.sum_consumption (TaskF.range_data data s e) = 0 ∧
      TaskF.sum_production (TaskF.range_data data s e) = 0 ∧
      TaskF.avg_temperature (TaskF.range_data data s e) = 0 ∧
      TaskF.daily_report_lines data s e =
        [TaskF.dashes,
         "Report for the period " ++ TaskF.format_date s ++ "–" ++
           TaskF.format_date e,
         "- Total consumption: 0,00 kWh", "- Total production: 0,00 kWh",
         "- Average temperature: 0,00 °C", TaskF.dashes]) ∧
    (∀ (data : List TaskF.Rec) (s e : Date), dateLeB s e = false →
      TaskF.daily_report_lines data s e =
        [TaskF.dashes,
         "Report for the period " ++ TaskF.format_date s ++ "–" ++
           TaskF.format_date e,
         "- Total consumption: 0,00 kWh", "- Total production: 0,00 kWh",
         "- Average temperature: 0,00 °C", TaskF.dashes]) ∧
    (∀ (data : List TaskF.Rec) (month : ℕ),
      TaskF.get_monthly_data data month 2025 = [] →
      TaskF.monthly_report_lines data month =
        [TaskF.dashes,
         "Report for the month: " ++ TaskF.month_names.getD month "",
         "- Total consumption: 0,00 kWh", "- Total production: 0,00 kWh",
         "- Average temperature: 0,00 °C", TaskF.dashes]) := by
  refine ⟨?_, ?_, ?_⟩
  · intro data s e h
    have hz := range_data_nil data s e h
    refine ⟨hz, by rw [hz]; decide!, by rw [hz]; decide!,
      by rw [hz]; decide!, ?_⟩
    unfold TaskF.daily_report_lines
    rw [hz]
    exact report_lines_empty _
  · intro data s e h
    have hz := range_data_reversed data s e h
    unfold TaskF.daily_report_lines
    rw [hz]
    exact report_lines_empty _
  · intro data month h
    unfold TaskF.monthly_report_lines
    rw [h]
    exact report_lines_empty _

/-- **C8, witness**: the reversed range `05.03.2025`–`01.03.2025` over a
non-empty record set yields the all-zero report. -/
theorem claim_C8_witness :
    TaskF.daily_report_lines
        [⟨⟨⟨2025, 3, 4⟩, ⟨8, 0, 0⟩⟩, 3 / 2, 1 / 2, 21⟩]
        ⟨2025, 3, 5⟩ ⟨2025, 3, 1⟩ =
      ["-----------------------------------------------------",
       "Report for the period 5.3.2025–1.3.2025",
       "- Total consumption: 0,00 kWh", "- Total production: 0,00 kWh",
       "- Average temperature: 0,00 °C",
       "-----------------------------------------------------"] := by
  rw [claim_C8_empty_selection.2.1
    [⟨⟨⟨2025, 3, 4⟩, ⟨8, 0, 0⟩⟩, 3 / 2, 1 / 2, 21⟩]
    ⟨2025, 3, 5⟩ ⟨2025, 3, 1⟩ (by decide!)]
  decide!

/-- **C9**: summing `task_e.py`'s per-day totals over all days (the
grand-total loop of `write_report`) gives exactly the total over the whole
record set computed directly. -/
theorem claim_C9_sum_invariant (data : List TaskE.Row)
    (m : List (Date × PhaseTotals))
    (h : TaskE.calculate_daily_summaries data = some m) :
    TaskE.grand_totals m = totalRawE data := by
  have h2 := taskE_calc_valsSum data [] m h
  rw [grand_totals_eq_valsSum, h2,
    show valsSum [] = zeroTotals from rfl, addT_zero_left]

/-- **C9, witness**: a concrete two-day instance. -/
theorem claim_C9_witness :
    TaskE.calculate_daily_summaries
        [rowE1000, ⟨"2025-10-16T09:00:00".toList, 1, 2, 3, 4, 5, 6⟩] =
      some [(⟨2025, 10, 15⟩, ⟨1000, 500, 250, 0, 0, 0⟩),
            (⟨2025, 10, 16⟩, ⟨1, 2, 3, 4, 5, 6⟩)] ∧
    TaskE.grand_totals
        [(⟨2025, 10, 15⟩, ⟨1000, 500, 250, 0, 0, 0⟩),
         (⟨2025, 10, 16⟩, ⟨1, 2, 3, 4, 5, 6⟩)] =
      totalRawE [rowE1000, ⟨"2025-10-16T09:00:00".toList, 1, 2, 3, 4, 5, 6⟩] := by
  have h : TaskE.calculate_daily_summaries
      [rowE1000, ⟨"2025-10-16T09:00:00".toList, 1, 2, 3, 4, 5, 6⟩] =
    some [(⟨2025, 10, 15⟩, ⟨1000, 500, 250, 0, 0, 0⟩),
          (⟨2025, 10, 16⟩, ⟨1, 2, 3, 4, 5, 6⟩)] := by decide!
  exact ⟨h, claim_C9_sum_invariant _ _ h⟩

/-- **C10**: for every reservation input file the class-based and the
dictionary-based Task G implementations produce identical console output,
line for line, across all five report sections (and crash on exactly the
same inputs). -/
theorem claim_C10_representation_equivalence (lines : List (List Char)) :
    TaskGC.main lines = TaskGD.main lines := by
  unfold TaskGC.main TaskGD.main
  rw [fetch_gd_eq lines]
  cases TaskGC.fetch_reservations lines with
  | none => rfl
  | some rs =>
      simp only [Option.map_some']
      rw [sec_confirmed_eq, sec_long_eq, sec_status_eq, sec_summary_eq,
        sec_revenue_eq]

end PyEmbed
